import Mathlib

/-
  Verification of the streaming chat client of the fast_next repository.

  The repository contains several near-duplicate evolutions of the same
  vanilla-JS chat frontend.  The definitions below are shallow embeddings of:
    * the newline frame decoder shared by all variants
      (src/unnamed/part_000 lines 176-187, src/frontend/main.js lines 121-133),
    * the refactored event dispatcher / phase accumulator / session controller
      of src/unnamed/part_000 (function initiateFetchAndStream),
    * the send handler and regenerate affordance of src/unnamed/part_000 and
      src/frontend/main.js,
    * the legacy single-try read loop of src/unnamed/part_004 (function send).

  External collaborators (the Markdown renderer `marked.parse`, the DOM, the
  network) are modelled at the boundary: Markdown rendering is an arbitrary
  function parameter `render`, the chat DOM is a list of message bubbles plus
  two loader flags, and the network read loop is the list of decoded lines it
  delivers.
-/

namespace FastNext

/-- Prepend text onto the first piece of a split result; used to express how
`split('\n')` behaves across a concatenation boundary. -/
def glueHead (x : List Char) : List (List Char) → List (List Char)
  | [] => [x]
  | h :: t => (x ++ h) :: t

/-- JS `s.split('\n')` on a character list, matching the frame decoder's
`buffer.split('\n')` (src/unnamed/part_000 line 183).  `splitNl [] = [[]]`,
matching `''.split('\n') === ['']`: the result is never empty. -/
def splitNl : List Char → List (List Char)
  | [] => [[]]
  | c :: cs => if c = '\n' then [] :: splitNl cs else glueHead [c] (splitNl cs)

/-- The last piece of a split result (with `[]` for the impossible empty
case), the JS `lines.pop() || ''`. -/
def lastPiece : List (List Char) → List Char
  | [] => []
  | [l] => l
  | _ :: l :: ls => lastPiece (l :: ls)

theorem glueHead_nil (x : List Char) : glueHead x [] = [x] := rfl

theorem glueHead_cons (x h : List Char) (t : List (List Char)) :
    glueHead x (h :: t) = (x ++ h) :: t := rfl

theorem splitNl_nil : splitNl [] = [[]] := rfl

theorem splitNl_cons (c : Char) (cs : List Char) :
    splitNl (c :: cs) =
      if c = '\n' then [] :: splitNl cs else glueHead [c] (splitNl cs) := rfl

theorem lastPiece_singleton (l : List Char) : lastPiece [l] = l := rfl

theorem lastPiece_cons₂ (a l : List Char) (ls : List (List Char)) :
    lastPiece (a :: l :: ls) = lastPiece (l :: ls) := rfl

theorem glueHead_ne_nil (x : List Char) (L : List (List Char)) :
    glueHead x L ≠ [] := by
  cases L <;> simp [glueHead_nil, glueHead_cons]

theorem splitNl_ne_nil (s : List Char) : splitNl s ≠ [] := by
  induction s with
  | nil => simp [splitNl_nil]
  | cons c cs ih =>
    rw [splitNl_cons]
    by_cases h : c = '\n'
    · simp [h]
    · simp [h, glueHead_ne_nil]

theorem glueHead_glueHead (a b : List Char) (L : List (List Char)) :
    glueHead a (glueHead b L) = glueHead (a ++ b) L := by
  cases L <;> simp [glueHead_nil, glueHead_cons]

theorem glueHead_nil_of_ne_nil (L : List (List Char)) (h : L ≠ []) :
    glueHead [] L = L := by
  cases L with
  | nil => exact absurd rfl h
  | cons l ls => simp [glueHead_cons]

/-- How `split('\n')` behaves across a concatenation boundary: the last
(possibly unterminated) piece of the left part glues onto the first piece of
the right part. -/
theorem splitNl_append (a b : List Char) :
    splitNl (a ++ b) =
      (splitNl a).dropLast ++ glueHead (lastPiece (splitNl a)) (splitNl b) := by
  induction a with
  | nil =>
    rw [List.nil_append, splitNl_nil]
    simp [lastPiece_singleton, glueHead_nil_of_ne_nil _ (splitNl_ne_nil b)]
  | cons c cs ih =>
    by_cases h : c = '\n'
    · cases hcs : splitNl cs with
      | nil => exact absurd hcs (splitNl_ne_nil cs)
      | cons l ls =>
        rw [hcs] at ih
        simp only [List.cons_append, splitNl_cons, if_pos h, hcs, ih,
          List.dropLast_cons₂, lastPiece_cons₂]
    · cases hcs : splitNl cs with
      | nil => exact absurd hcs (splitNl_ne_nil cs)
      | cons l ls =>
        rw [hcs] at ih
        cases ls with
        | nil =>
          simp only [List.dropLast_single, lastPiece_singleton,
            List.nil_append] at ih
          simp only [List.cons_append, splitNl_cons, if_neg h, hcs, ih,
            glueHead_glueHead, glueHead_cons, List.dropLast_single,
            lastPiece_singleton, List.singleton_append, List.nil_append]
        | cons l2 ls2 =>
          simp only [List.dropLast_cons₂, lastPiece_cons₂,
            List.cons_append] at ih
          simp only [List.cons_append, splitNl_cons, if_neg h, hcs, ih,
            glueHead_cons, List.dropLast_cons₂, lastPiece_cons₂,
            List.singleton_append]

/-- The pending (last) piece of a newline split never contains a newline. -/
theorem lastPiece_splitNl_no_newline (s : List Char) :
    '\n' ∉ lastPiece (splitNl s) := by
  induction s with
  | nil => simp [splitNl_nil, lastPiece_singleton]
  | cons c cs ih =>
    by_cases h : c = '\n'
    · cases hcs : splitNl cs with
      | nil => exact absurd hcs (splitNl_ne_nil cs)
      | cons l ls =>
        rw [hcs] at ih
        rw [splitNl_cons, if_pos h, hcs, lastPiece_cons₂]
        exact ih
    · cases hcs : splitNl cs with
      | nil => exact absurd hcs (splitNl_ne_nil cs)
      | cons l ls =>
        rw [hcs] at ih
        cases ls with
        | nil =>
          rw [splitNl_cons, if_neg h, hcs, glueHead_cons, lastPiece_singleton,
            List.singleton_append]
          rw [lastPiece_singleton] at ih
          intro hmem
          rcases List.mem_cons.mp hmem with h1 | h1
          · exact h h1.symm
          · exact ih h1
        | cons l2 ls2 =>
          rw [splitNl_cons, if_neg h, hcs, glueHead_cons, lastPiece_cons₂]
          rw [lastPiece_cons₂] at ih
          exact ih

/-- A newline-free text splits into a single piece. -/
theorem splitNl_of_no_newline (s : List Char) (h : '\n' ∉ s) :
    splitNl s = [s] := by
  induction s with
  | nil => rfl
  | cons c cs ih =>
    simp only [List.mem_cons, not_or] at h
    have hc : ¬ c = '\n' := fun hcc => h.1 hcc.symm
    rw [splitNl_cons, if_neg hc, ih h.2, glueHead_cons, List.singleton_append]

theorem dropLast_append_of_ne_nil (s t : List (List Char)) (h : t ≠ []) :
    (s ++ t).dropLast = s ++ t.dropLast := by
  induction s with
  | nil => rfl
  | cons x s ih =>
    cases hst : s ++ t with
    | nil =>
      rcases List.append_eq_nil.mp hst with ⟨-, h2⟩
      exact absurd h2 h
    | cons y ys =>
      calc ((x :: s) ++ t).dropLast = (x :: y :: ys).dropLast := by
            rw [List.cons_append, hst]
        _ = x :: (y :: ys).dropLast := List.dropLast_cons₂
        _ = x :: (s ++ t).dropLast := by rw [hst]
        _ = x :: (s ++ t.dropLast) := by rw [ih]
        _ = (x :: s) ++ t.dropLast := rfl

theorem lastPiece_append_of_ne_nil (s t : List (List Char)) (h : t ≠ []) :
    lastPiece (s ++ t) = lastPiece t := by
  induction s with
  | nil => rfl
  | cons x s ih =>
    cases hst : s ++ t with
    | nil =>
      rcases List.append_eq_nil.mp hst with ⟨-, h2⟩
      exact absurd h2 h
    | cons y ys =>
      calc lastPiece ((x :: s) ++ t) = lastPiece (x :: y :: ys) := by
            rw [List.cons_append, hst]
        _ = lastPiece (y :: ys) := lastPiece_cons₂ x y ys
        _ = lastPiece (s ++ t) := by rw [hst]
        _ = lastPiece t := ih

/-- State of the frame decoder: the pending partial-line buffer and the lines
handed to the per-line processing loop so far
(src/unnamed/part_000 lines 176-187). -/
structure DecoderState where
  buffer : List Char
  processed : List (List Char)
  deriving DecidableEq

/-- One network read: append the fragment to the pending buffer, split on
newline, hand over every line but the last, keep the last as the new pending
buffer (src/unnamed/part_000 lines 182-184: `buffer += decoder.decode(value)`;
`const lines = buffer.split('\n')`; `buffer = lines.pop() || ''`). -/
def feedFragment (st : DecoderState) (frag : List Char) : DecoderState :=
  let lines := splitNl (st.buffer ++ frag)
  { buffer := lastPiece lines, processed := st.processed ++ lines.dropLast }

/-- Feed a whole sequence of network fragments through the decoder, starting
from the empty buffer.  On `done` the read loop breaks and the pending buffer
is dropped, so `processed` is exactly the list of lines the loop body saw. -/
def feedAll (frags : List (List Char)) : DecoderState :=
  frags.foldl feedFragment { buffer := [], processed := [] }

/-- Main decoder invariant: after feeding further fragments on top of the
already-consumed text `s`, the processed lines and pending buffer are exactly
those of splitting the total text. -/
theorem feedAll_invariant (frags : List (List Char)) (s : List Char)
    (P : List (List Char)) :
    List.foldl feedFragment
      { buffer := lastPiece (splitNl s), processed := P ++ (splitNl s).dropLast }
      frags =
    { buffer := lastPiece (splitNl (s ++ frags.flatten)),
      processed := P ++ (splitNl (s ++ frags.flatten)).dropLast } := by
  induction frags generalizing s P with
  | nil => simp
  | cons frag frags ih =>
    have hb : '\n' ∉ lastPiece (splitNl s) := lastPiece_splitNl_no_newline s
    have hsplit : splitNl (lastPiece (splitNl s) ++ frag) =
        glueHead (lastPiece (splitNl s)) (splitNl frag) := by
      rw [splitNl_append, splitNl_of_no_newline _ hb]
      simp [lastPiece_singleton]
    have hfull : splitNl (s ++ frag) =
        (splitNl s).dropLast ++ splitNl (lastPiece (splitNl s) ++ frag) := by
      rw [splitNl_append s frag, hsplit]
    have hne : splitNl (lastPiece (splitNl s) ++ frag) ≠ [] :=
      splitNl_ne_nil _
    have hstep : feedFragment
        { buffer := lastPiece (splitNl s), processed := P ++ (splitNl s).dropLast }
        frag =
        { buffer := lastPiece (splitNl (s ++ frag)),
          processed := P ++ (splitNl (s ++ frag)).dropLast } := by
      simp only [feedFragment, hfull]
      rw [lastPiece_append_of_ne_nil _ _ hne,
        dropLast_append_of_ne_nil _ _ hne, List.append_assoc]
    have hjoin : (s ++ frag) ++ frags.flatten = s ++ (frag :: frags).flatten := by
      simp
    simp only [List.foldl_cons, hstep, ih (s ++ frag) P, hjoin]

/-- C1.  For every sequence of text fragments fed to the frame decoder loop,
the lines processed are exactly the lines obtained by concatenating all
fragments and splitting on newline, in arrival order, except that the final
unterminated remainder (the split's last piece, i.e. the data after the last
newline) stays in the pending buffer and is never processed as a line. -/
theorem C1_frame_decoder_lines (frags : List (List Char)) :
    (feedAll frags).processed = (splitNl frags.flatten).dropLast ∧
    (feedAll frags).buffer = lastPiece (splitNl frags.flatten) := by
  have h0 : ({ buffer := [], processed := [] } : DecoderState) =
      { buffer := lastPiece (splitNl []),
        processed := ([] : List (List Char)) ++ (splitNl []).dropLast } := by
    rfl
  rw [feedAll, h0, feedAll_invariant frags [] []]
  simp

/-- Kind of a chat message bubble, matching the CSS class passed to `mkMsg`
(src/unnamed/part_000 lines 54-75). -/
inductive BubbleKind where
  | user
  | sugg
  | code
  | error
  deriving DecidableEq

/-- One message bubble in the chat view.  `content` is the rendered HTML of
the bubble's content slot; `cursor` models the `streaming-cursor` span;
`hasRegen`, `regenForSuggestions` and `regenMessage` model the Regenerate
button attached by `addRegenerateButton` (src/unnamed/part_000 lines 106-127)
and the `originalMessage`/`isForSuggestions` values captured by its click
handler. -/
structure Bubble where
  kind : BubbleKind
  agent : String
  content : String
  cursor : Bool
  hasRegen : Bool
  regenForSuggestions : Bool
  regenMessage : String
  deriving DecidableEq

/-- The chat DOM: the list of message bubbles in document order plus the two
loader elements `#initial-loader` and `#generation-loader`
(src/unnamed/part_000 lines 29-45: showLoader / hideLoader). -/
structure View where
  bubbles : List Bubble
  initialLoader : Bool
  generationLoader : Bool
  deriving DecidableEq

/-- A decoded stream event `{type, agent, content}` (spec section 6,
protocol (a) plus the atomic `suggestions` record of protocol (b) used by
src/unnamed/part_004; `other` stands for any unrecognised `type`, which every
switch ignores). -/
inductive Event where
  | suggestions_chunk (agent content : String)
  | suggestions_end (agent : String)
  | generated_code_chunk (agent content : String)
  | stream_end (agent : String)
  | error (agent content : String)
  | suggestions (agent content : String)
  | other
  deriving DecidableEq

/-- One decoded line as seen by the per-line loop: whitespace-only (skipped
by `if (!line.trim()) continue`), a line `JSON.parse` rejects, or a parsed
event record. -/
inductive Line where
  | blank
  | malformed (raw : String)
  | ok (e : Event)
  deriving DecidableEq

/-- The process-wide LastSuggestion cache entry `{agent, content}`
(src/unnamed/part_000 lines 14-15). -/
structure SuggCache where
  agent : String
  content : String
  deriving DecidableEq

/-- Replace the bubble at position `i` (the DOM node held by `suggMsgEl` /
`genMsgEl`) by `f` of it; other bubbles are untouched. -/
def modifyBubble (f : Bubble → Bubble) : Nat → List Bubble → List Bubble
  | _, [] => []
  | 0, b :: bs => f b :: bs
  | n + 1, b :: bs => b :: modifyBubble f n bs

/-- Write the rendered accumulated text into the bubble's content span
(`suggContentSpan.innerHTML = marked.parse(suggAccumMd)` and the generation
analogue, src/unnamed/part_000 lines 214 and 238-241). -/
def View.updateContent (v : View) (i : Nat) (s : String) : View :=
  { v with bubbles := modifyBubble (fun b => { b with content := s }) i v.bubbles }

/-- Remove the streaming cursor from a bubble
(`querySelector('.streaming-cursor')?.remove()`). -/
def View.removeCursor (v : View) (i : Nat) : View :=
  { v with bubbles := modifyBubble (fun b => { b with cursor := false }) i v.bubbles }

/-- `addRegenerateButton(msgDiv, originalMessage, isForSuggestions)`
(src/unnamed/part_000 lines 106-127): attach a Regenerate button once;
a second call on the same bubble is a no-op. -/
def View.addRegen (v : View) (i : Nat) (msg : String) (forSugg : Bool) : View :=
  { v with bubbles := modifyBubble (fun b =>
      if b.hasRegen then b
      else { b with hasRegen := true, regenForSuggestions := forSugg,
                    regenMessage := msg }) i v.bubbles }

/-- Append a freshly created message bubble (`mkMsg`). -/
def View.appendBubble (v : View) (b : Bubble) : View :=
  { v with bubbles := v.bubbles ++ [b] }

/-- `showLoader('generation-loader', ...)`: at the granularity of this model
the loader element exists afterwards (showLoader first removes a duplicate). -/
def View.showGenLoader (v : View) : View := { v with generationLoader := true }

/-- `hideLoader('generation-loader')`. -/
def View.hideGenLoader (v : View) : View := { v with generationLoader := false }

/-- `hideLoader('initial-loader')`. -/
def View.hideInitLoader (v : View) : View := { v with initialLoader := false }

/-- A newly opened streaming bubble: attribution header plus an empty content
span and a streaming cursor (src/unnamed/part_000 lines 207-212, 231-236). -/
def openBubble (kind : BubbleKind) (agent : String) : Bubble :=
  { kind := kind, agent := agent, content := "", cursor := true,
    hasRegen := false, regenForSuggestions := false, regenMessage := "" }

/-- A bubble created by `mkMsg(text, 'user')` in handleSend
(src/unnamed/part_000 line 136): raw text, no streaming state. -/
def userBubble (text : String) : Bubble :=
  { kind := .user, agent := "", content := text, cursor := false,
    hasRegen := false, regenForSuggestions := false, regenMessage := "" }

/-- The local and global mutable state of one run of
`initiateFetchAndStream` in src/unnamed/part_000 (lines 150-160): the chat
view, the process-wide LastSuggestion cache, the send-button disabled flag,
and the per-phase accumulators (`suggMsgEl`/`genMsgEl` are bubble indices,
`suggContentSpan`/`genContentSpan` are determined by them and not modelled
separately). -/
structure SessState where
  view : View
  lastSuggestions : Option SuggCache
  sendDisabled : Bool
  suggEl : Option Nat
  suggAccum : String
  suggAgent : String
  genEl : Option Nat
  genAccum : String
  genAgent : String
  hasReceivedData : Bool
  suggestionPhaseIsComplete : Bool
  deriving DecidableEq

/-- The bubble rendered by the `error` case of src/unnamed/part_000 lines
253-258: `mkMsg` with the Markdown error text, then `addRegenerateButton`
with `isForSuggestions = !suggestionPhaseIsComplete`. -/
def errorBubble (render : String → String) (msgOrig ag c : String)
    (phaseComplete : Bool) : Bubble :=
  { kind := .error, agent := ag,
    content := render ("**Error from " ++ ag ++ ":**\n\n" ++ c),
    cursor := false, hasRegen := true,
    regenForSuggestions := !phaseComplete,
    regenMessage := msgOrig }

/-- The `switch (msg.type)` of src/unnamed/part_000 lines 205-259, acting on
one parsed event.  `render` is the external `marked.parse`; `msgOrig` is the
`messageToProcess` captured by the regenerate buttons.  The returned Bool is
true exactly when the handler executed `return` (the `error` case, line 258),
terminating the read loop. -/
def dispatch (render : String → String) (msgOrig : String)
    (st : SessState) (e : Event) : SessState × Bool :=
  match e with
  | .suggestions_chunk ag c =>
    let st :=
      match st.suggEl with
      | some _ => st
      | none =>
        { st with suggAgent := ag,
                  suggEl := some st.view.bubbles.length,
                  view := st.view.appendBubble (openBubble .sugg ag) }
    let accum := st.suggAccum ++ c
    let st := { st with suggAccum := accum }
    let st :=
      match st.suggEl with
      | some i => { st with view := st.view.updateContent i (render accum) }
      | none => st
    (st, false)
  | .suggestions_end ag =>
    let st := { st with suggestionPhaseIsComplete := true }
    let st :=
      match st.suggEl with
      | some i =>
        { st with
            view := (st.view.removeCursor i).addRegen i msgOrig true,
            lastSuggestions := some { agent := ag, content := st.suggAccum } }
      | none => st
    ({ st with view := st.view.showGenLoader }, false)
  | .generated_code_chunk ag c =>
    let st := { st with view := st.view.hideGenLoader }
    let st :=
      match st.genEl with
      | some _ => st
      | none =>
        { st with genAgent := ag,
                  genEl := some st.view.bubbles.length,
                  view := st.view.appendBubble (openBubble .code ag) }
    let accum := st.genAccum ++ c
    let st := { st with genAccum := accum }
    let st :=
      match st.genEl with
      | some i => { st with view := st.view.updateContent i (render accum) }
      | none => st
    (st, false)
  | .stream_end _ =>
    let st := { st with view := st.view.hideGenLoader }
    let st :=
      match st.genEl with
      | some i =>
        { st with view := (st.view.removeCursor i).addRegen i msgOrig false }
      | none => st
    (st, false)
  | .error ag c =>
    let st := { st with view := st.view.hideInitLoader.hideGenLoader }
    let eb := errorBubble render msgOrig ag c st.suggestionPhaseIsComplete
    ({ st with view := st.view.appendBubble eb }, true)
  | .suggestions _ _ => (st, false)
  | .other => (st, false)

/-- The `if (!hasReceivedData)` gate of src/unnamed/part_000 lines 189-195:
on the first non-blank line of the stream, hide the initial loader and, when
the session started with a cached suggestion, show the generation loader. -/
def applyGate (st : SessState) : SessState :=
  if st.hasReceivedData then st
  else
    let v := st.view.hideInitLoader
    let v := if st.suggestionPhaseIsComplete then v.showGenLoader else v
    { st with view := v, hasReceivedData := true }

/-- One iteration of the per-line loop of src/unnamed/part_000 lines
186-259: skip whitespace-only lines; otherwise run the first-data gate, then
on a `JSON.parse` failure log and continue, else dispatch the parsed event.
The third component is the console output of this step. -/
def stepLine (render : String → String) (msgOrig : String)
    (st : SessState) (l : Line) : SessState × Bool × List String :=
  match l with
  | .blank => (st, false, [])
  | .malformed raw => (applyGate st, false, ["JSON parse error: " ++ raw])
  | .ok e =>
    let r := dispatch render msgOrig (applyGate st) e
    (r.1, r.2, [])

/-- The whole read loop over the decoded lines of one response: stop
immediately after a step that executed `return` (the `error` event).  Returns
the final state, whether the loop aborted early, and the console output. -/
def runLines (render : String → String) (msgOrig : String) :
    SessState → List Line → SessState × Bool × List String
  | st, [] => (st, false, [])
  | st, l :: ls =>
    match stepLine render msgOrig st l with
    | (st2, true, out) => (st2, true, out)
    | (st2, false, out) =>
      let rest := runLines render msgOrig st2 ls
      (rest.1, rest.2.1, out ++ rest.2.2)

/-- The `finally` block of initiateFetchAndStream (src/unnamed/part_000
lines 268-273): hide both loaders, re-enable the send button. -/
def sessionCleanup (st : SessState) : SessState :=
  { st with view := st.view.hideInitLoader.hideGenLoader, sendDisabled := false }

/-- The state at the top of the read loop of `initiateFetchAndStream`
(src/unnamed/part_000 lines 150-160): send button disabled, all accumulators
empty, `suggestionPhaseIsComplete = !!cachedSuggestion`. -/
def initSession (view : View) (lastSugg : Option SuggCache)
    (cachedSuggestion : Option SuggCache) : SessState :=
  { view := view, lastSuggestions := lastSugg, sendDisabled := true,
    suggEl := none, suggAccum := "", suggAgent := "",
    genEl := none, genAccum := "", genAgent := "",
    hasReceivedData := false,
    suggestionPhaseIsComplete := cachedSuggestion.isSome }

/-- The JSON request body produced by both src/unnamed/part_000 lines
165-169 (`cached_suggestions: cachedSuggestion?.content`, undefined when
absent) and src/frontend/main.js lines 108-112 (fields added only when
`cachedSuggestion` is non-null). -/
structure RequestBody where
  user_message : String
  cached_suggestions : Option String
  cached_sugg_agent : Option String
  deriving DecidableEq

def buildRequestBody (messageToProcess : String)
    (cachedSuggestion : Option SuggCache) : RequestBody :=
  { user_message := messageToProcess,
    cached_suggestions := cachedSuggestion.map SuggCache.content,
    cached_sugg_agent := cachedSuggestion.map SuggCache.agent }

/-- The regenerate click handler of src/frontend/main.js lines 85-93 replays
`initiateFetchAndStream(originalMessage, lastSuggestions)`; this is the body
it sends. -/
def regenerateRequest (originalMessage : String)
    (lastSuggestions : Option SuggCache) : RequestBody :=
  buildRequestBody originalMessage lastSuggestions

/-- The cached suggestion passed by the regenerate click handler of
src/unnamed/part_000 lines 115-123:
`const suggestionsToUse = isForSuggestions ? null : lastSuggestions`. -/
def regenerateCachedSuggestion (isForSuggestions : Bool)
    (lastSuggestions : Option SuggCache) : Option SuggCache :=
  if isForSuggestions then none else lastSuggestions

/-- The platform `String.prototype.trim()` used by the send handlers
(`inputEl.value.trim()`), modelled on the character list: strip leading and
trailing whitespace. -/
def jsTrim (s : String) : String :=
  ⟨((s.data.dropWhile Char.isWhitespace).reverse.dropWhile
      Char.isWhitespace).reverse⟩

/-- The composer-level global state read and written by `handleSend`. -/
structure ComposerState where
  view : View
  lastSuggestions : Option SuggCache
  inputValue : String
  sendDisabled : Bool
  deriving DecidableEq

/-- `handleSend` of src/unnamed/part_000 lines 132-143: trim the composer
text; on empty text return immediately; otherwise append the user bubble,
clear the input, reset the LastSuggestion cache, show the initial loader, and
issue the request (the returned `some text` is the `messageToProcess` handed
to `initiateFetchAndStream(text, null)`; `none` means no request is made). -/
def handleSend (st : ComposerState) : ComposerState × Option String :=
  let text := jsTrim st.inputValue
  if text = "" then (st, none)
  else
    ({ st with
        view := { st.view.appendBubble (userBubble text) with initialLoader := true },
        inputValue := "",
        lastSuggestions := none }, some text)

/-- `handleSend` of src/frontend/main.js lines 64-73: same trim guard and
user bubble, but no loader and, notably, no reset of `lastSuggestions`;
the request is issued with no cached suggestion. -/
def handleSendFm (st : ComposerState) : ComposerState × Option String :=
  let text := jsTrim st.inputValue
  if text = "" then (st, none)
  else
    ({ st with
        view := st.view.appendBubble (userBubble text),
        inputValue := "" }, some text)

/-- State of the read loop of `initiateFetchAndStream` in
src/frontend/main.js lines 99-206: this variant has no loading indicators;
its view is the bubble list, and its only phase locals are the generation
agent, the accumulated Markdown and the open streaming message
(`generationMsgEl`, here a bubble index; `generationContentSpan` is
determined by it and not modelled separately). -/
structure FmState where
  bubbles : List Bubble
  lastSuggestions : Option SuggCache
  generationAgent : String
  generationAccumMd : String
  generationMsgEl : Option Nat
  deriving DecidableEq

/-- The state at the top of the read loop of src/frontend/main.js lines
99-106. -/
def initFmSession (lastSugg : Option SuggCache) : FmState :=
  { bubbles := [], lastSuggestions := lastSugg, generationAgent := "",
    generationAccumMd := "", generationMsgEl := none }

/-- One iteration of the per-line loop of src/frontend/main.js lines
132-187.  Whitespace-only lines are skipped; the try/catch wraps the parse,
so a malformed line renders an inline error bubble with a regenerate button
and the loop continues.  The `suggestions` record is atomic in this variant;
`stream_end` finalizes only when the agent matches and resets the phase
locals (it attaches no regenerate button and its re-render writes back the
content already displayed, a no-op here); crucially, the `error` branch
(lines 173-179) renders the error bubble and does NOT return — the loop
keeps processing later lines. -/
def stepFm (render : String → String) (msgOrig : String)
    (st : FmState) (l : Line) : FmState :=
  match l with
  | .blank => st
  | .malformed raw =>
    { st with bubbles := st.bubbles ++
        [{ kind := .error, agent := "",
           content := render ("Client-side error parsing stream data: " ++ raw),
           cursor := false, hasRegen := true, regenForSuggestions := false,
           regenMessage := msgOrig }] }
  | .ok e =>
    match e with
    | .suggestions ag c =>
      { st with
          lastSuggestions := some { agent := ag, content := c },
          bubbles := st.bubbles ++
            [{ kind := .sugg, agent := ag,
               content := render ("**" ++ ag ++ ":**\n\n" ++ c),
               cursor := false, hasRegen := false,
               regenForSuggestions := false, regenMessage := "" }] }
    | .generated_code_chunk ag c =>
      let st :=
        match st.generationMsgEl with
        | some _ => st
        | none =>
          { st with generationAgent := ag,
                    generationMsgEl := some st.bubbles.length,
                    bubbles := st.bubbles ++ [openBubble .code ag] }
      let accum := st.generationAccumMd ++ c
      let st := { st with generationAccumMd := accum }
      match st.generationMsgEl with
      | some i =>
        { st with bubbles := modifyBubble (fun b => { b with content := render accum }) i st.bubbles }
      | none => st
    | .stream_end ag =>
      match st.generationMsgEl with
      | some i =>
        if ag = st.generationAgent then
          { st with
              bubbles := modifyBubble (fun b => { b with cursor := false }) i st.bubbles,
              generationMsgEl := none, generationAccumMd := "",
              generationAgent := "" }
        else st
      | none => st
    | .error ag c =>
      { st with bubbles := st.bubbles ++
          [{ kind := .error, agent := ag,
             content := render ("**Error from " ++ ag ++ ":**\n\n" ++ c),
             cursor := false, hasRegen := true, regenForSuggestions := false,
             regenMessage := msgOrig }] }
    | _ => st

/-- The whole per-line loop of src/frontend/main.js: a plain fold — no
branch aborts it, so every line of the response is processed. -/
def runFmLines (render : String → String) (msgOrig : String)
    (st : FmState) (ls : List Line) : FmState :=
  ls.foldl (stepFm render msgOrig) st

/-- State of the legacy read loop of src/unnamed/part_004 (function `send`,
lines 68-115): the chat bubbles, the current generator persona
(`generatorName`), and the open streaming message (`streamMsg`, here a
bubble index).  The `cursor` flag models its `<span class="streaming">`. -/
structure P4State where
  bubbles : List Bubble
  generatorName : String
  streamMsg : Option Nat
  deriving DecidableEq

/-- The event branches of src/unnamed/part_004 lines 90-105.  In this
variant `mkMsg` injects the text as raw HTML and chunks are appended to the
open bubble verbatim (`span.insertAdjacentHTML('beforebegin', msg.content)`);
a new code bubble opens whenever the chunk's agent differs from
`generatorName`. -/
def stepP4 (st : P4State) (e : Event) : P4State :=
  match e with
  | .suggestions ag c =>
    { st with bubbles := st.bubbles ++
        [{ kind := .sugg, agent := ag,
           content := "**" ++ ag ++ ":**\n\n" ++ c,
           cursor := false, hasRegen := false, regenForSuggestions := false,
           regenMessage := "" }] }
  | .generated_code_chunk ag c =>
    let st :=
      if st.generatorName = ag then st
      else
        { st with generatorName := ag,
                  streamMsg := some st.bubbles.length,
                  bubbles := st.bubbles ++ [openBubble .code ag] }
    match st.streamMsg with
    | some i =>
      { st with bubbles :=
          modifyBubble (fun b => { b with content := b.content ++ c }) i st.bubbles }
    | none => st
  | .error ag c =>
    { st with bubbles := st.bubbles ++
        [{ kind := .error, agent := ag,
           content := "**Error from " ++ ag ++ ":**\n\n" ++ c,
           cursor := false, hasRegen := false, regenForSuggestions := false,
           regenMessage := "" }] }
  | _ => st

/-- The read loop of src/unnamed/part_004 lines 81-107.  `const msg =
JSON.parse(line)` is not wrapped in a per-line try/catch: a malformed line
raises out of the loop (second component `true`), abandoning every
remaining line. -/
def runP4Lines : P4State → List Line → P4State × Bool
  | st, [] => (st, false)
  | st, .blank :: ls => runP4Lines st ls
  | _st, .malformed _ :: _ => (_st, true)
  | st, .ok e :: ls => runP4Lines (stepP4 st e) ls

/-- `send` of src/unnamed/part_004 after the user message is posted: run the
read loop over the decoded lines; on normal completion strip the streaming
span (line 108); if an exception escaped the loop, the function-level catch
(lines 109-110) renders a client error bubble (the platform's exception
message is abstracted as a fixed text). -/
def sendP4 (lines : List Line) : P4State × Bool :=
  let r := runP4Lines { bubbles := [], generatorName := "", streamMsg := none } lines
  if r.2 then
    ({ r.1 with bubbles := r.1.bubbles ++
        [{ kind := .error, agent := "",
           content := "Client error: JSON parse failure",
           cursor := false, hasRegen := false, regenForSuggestions := false,
           regenMessage := "" }] }, true)
  else
    ((match r.1.streamMsg with
      | some i =>
        { r.1 with bubbles :=
            modifyBubble (fun b => { b with cursor := false }) i r.1.bubbles }
      | none => r.1), false)

/-- Whether a line is a parsed `error` event (the only kind whose handler
executes `return` in src/unnamed/part_000). -/
def Line.isError : Line → Bool
  | .ok (.error _ _) => true
  | _ => false

/-- Whether a line is a parsed `suggestions_chunk` event (the only event
that can create a suggestion bubble in src/unnamed/part_000). -/
def Line.isSuggChunk : Line → Bool
  | .ok (.suggestions_chunk _ _) => true
  | _ => false

/-- Number of bubbles of a given kind in the chat. -/
def countKind (k : BubbleKind) (bs : List Bubble) : Nat :=
  (bs.filter (fun b => decide (b.kind = k))).length

theorem stepLine_stop (r : String → String) (m : String) (st : SessState)
    (l : Line) : (stepLine r m st l).2.1 = l.isError := by
  cases l with
  | blank => rfl
  | malformed raw => rfl
  | ok e => cases e <;> rfl

theorem runLines_cons (r : String → String) (m : String) (st : SessState)
    (l : Line) (ls : List Line) :
    runLines r m st (l :: ls) =
      match stepLine r m st l with
      | (st2, true, out) => (st2, true, out)
      | (st2, false, out) =>
        ((runLines r m st2 ls).1, (runLines r m st2 ls).2.1,
          out ++ (runLines r m st2 ls).2.2) := rfl

theorem runLines_append_stop (r : String → String) (m : String)
    (a b : List Line) (st : SessState)
    (h : (runLines r m st a).2.1 = true) :
    runLines r m st (a ++ b) = runLines r m st a := by
  induction a generalizing st with
  | nil => simp [runLines] at h
  | cons l ls ih =>
    rcases hs : stepLine r m st l with ⟨st2, stop, out⟩
    rw [runLines_cons, hs] at h
    rw [List.cons_append, runLines_cons, hs, runLines_cons, hs]
    cases stop with
    | true => rfl
    | false =>
      simp only at h ⊢
      rw [ih st2 h]

theorem runLines_append_no_stop (r : String → String) (m : String)
    (a b : List Line) (st : SessState)
    (h : (runLines r m st a).2.1 = false) :
    runLines r m st (a ++ b) =
      ((runLines r m (runLines r m st a).1 b).1,
       (runLines r m (runLines r m st a).1 b).2.1,
       (runLines r m st a).2.2 ++ (runLines r m (runLines r m st a).1 b).2.2) := by
  induction a generalizing st with
  | nil => simp [runLines]
  | cons l ls ih =>
    rcases hs : stepLine r m st l with ⟨st2, stop, out⟩
    rw [runLines_cons, hs] at h
    rw [List.cons_append, runLines_cons, hs]
    conv_rhs => rw [runLines_cons, hs]
    cases stop with
    | true => simp at h
    | false =>
      simp only at h ⊢
      rw [ih st2 h]
      simp [List.append_assoc]

theorem modifyBubble_length (f : Bubble → Bubble) (i : Nat) (bs : List Bubble) :
    (modifyBubble f i bs).length = bs.length := by
  induction bs generalizing i with
  | nil => cases i <;> rfl
  | cons b bs ih =>
    cases i with
    | zero => rfl
    | succ n => simp [modifyBubble, ih]

theorem modifyBubble_getElem? (f : Bubble → Bubble) (i j : Nat)
    (bs : List Bubble) :
    (modifyBubble f i bs)[j]? =
      if i = j then (bs[j]?).map f else bs[j]? := by
  induction bs generalizing i j with
  | nil => cases i <;> simp [modifyBubble]
  | cons b bs ih =>
    cases i with
    | zero =>
      cases j with
      | zero => simp [modifyBubble]
      | succ k => simp [modifyBubble]
    | succ n =>
      cases j with
      | zero => simp [modifyBubble]
      | succ k => simp [modifyBubble, ih]

theorem modifyBubble_modifyBubble (f g : Bubble → Bubble) (i : Nat)
    (bs : List Bubble) :
    modifyBubble f i (modifyBubble g i bs) =
      modifyBubble (fun b => f (g b)) i bs := by
  induction bs generalizing i with
  | nil => cases i <;> rfl
  | cons b bs ih =>
    cases i with
    | zero => rfl
    | succ n => simp [modifyBubble, ih]

theorem getElem?_append_singleton (bs : List Bubble) (b : Bubble) (j : Nat) :
    (bs ++ [b])[j]? =
      if j < bs.length then bs[j]?
      else if j = bs.length then some b else none := by
  induction bs generalizing j with
  | nil =>
    cases j with
    | zero => simp
    | succ k => simp
  | cons x bs ih =>
    cases j with
    | zero => simp
    | succ k => simpa using ih k

theorem countKind_cons (k : BubbleKind) (b : Bubble) (bs : List Bubble) :
    countKind k (b :: bs) = (if b.kind = k then 1 else 0) + countKind k bs := by
  by_cases h : b.kind = k <;> simp [countKind, h, Nat.add_comm]

theorem countKind_append_singleton (k : BubbleKind) (bs : List Bubble)
    (b : Bubble) :
    countKind k (bs ++ [b]) = countKind k bs + (if b.kind = k then 1 else 0) := by
  by_cases h : b.kind = k <;> simp [countKind, List.filter_append, h]

theorem countKind_modifyBubble (k : BubbleKind) (f : Bubble → Bubble)
    (hf : ∀ b, (f b).kind = b.kind) (i : Nat) (bs : List Bubble) :
    countKind k (modifyBubble f i bs) = countKind k bs := by
  induction bs generalizing i with
  | nil => cases i <;> rfl
  | cons b bs ih =>
    cases i with
    | zero => simp [modifyBubble, countKind_cons, hf]
    | succ n => simp [modifyBubble, countKind_cons, ih]

theorem updateContent_updateContent (v : View) (i : Nat) (s t : String) :
    (v.updateContent i s).updateContent i t = v.updateContent i t := by
  simp only [View.updateContent, modifyBubble_modifyBubble]

theorem hideGenLoader_updateContent (v : View) (i : Nat) (s : String) :
    (v.updateContent i s).hideGenLoader = v.hideGenLoader.updateContent i s := rfl

theorem hideGenLoader_idem (v : View) :
    v.hideGenLoader.hideGenLoader = v.hideGenLoader := rfl

theorem hideInitLoader_bubbles (v : View) :
    v.hideInitLoader.bubbles = v.bubbles := rfl

theorem hideGenLoader_bubbles (v : View) :
    v.hideGenLoader.bubbles = v.bubbles := rfl

theorem showGenLoader_bubbles (v : View) :
    v.showGenLoader.bubbles = v.bubbles := rfl

theorem appendBubble_hideGenLoader (v : View) (b : Bubble) :
    (v.appendBubble b).hideGenLoader = v.hideGenLoader.appendBubble b := rfl

/-- Concatenation of a list of text fragments in arrival order. -/
def joinS : List String → String
  | [] => ""
  | s :: ss => s ++ joinS ss

/-- The decoded lines carrying the suggestion-phase fragments `cs`. -/
def suggChunkLines (ag : String) (cs : List String) : List Line :=
  cs.map (fun c => Line.ok (Event.suggestions_chunk ag c))

/-- The decoded lines carrying the generation-phase fragments `cs`. -/
def genChunkLines (ag : String) (cs : List String) : List Line :=
  cs.map (fun c => Line.ok (Event.generated_code_chunk ag c))

theorem runLines_no_stop (r : String → String) (m : String)
    (ls : List Line) (st : SessState)
    (h : ∀ l ∈ ls, l.isError = false) :
    (runLines r m st ls).2.1 = false := by
  induction ls generalizing st with
  | nil => rfl
  | cons l ls ih =>
    rw [runLines_cons]
    rcases hs : stepLine r m st l with ⟨st2, stop, out⟩
    have hstop : stop = l.isError := by
      have h1 := stepLine_stop r m st l
      rw [hs] at h1
      exact h1
    rw [h l (List.mem_cons_self l ls)] at hstop
    subst hstop
    simp only
    exact ih st2 (fun x hx => h x (List.mem_cons_of_mem _ hx))

theorem stepLine_suggChunk_open (r : String → String) (m ag c : String)
    (st : SessState) (i : Nat) (hr : st.hasReceivedData = true)
    (hs : st.suggEl = some i) :
    stepLine r m st (Line.ok (Event.suggestions_chunk ag c)) =
      ({ st with suggAccum := st.suggAccum ++ c,
                 view := st.view.updateContent i (r (st.suggAccum ++ c)) },
       false, []) := by
  simp [stepLine, applyGate, dispatch, hr, hs]

theorem stepLine_genChunk_open (r : String → String) (m ag c : String)
    (st : SessState) (i : Nat) (hr : st.hasReceivedData = true)
    (hg : st.genEl = some i) :
    stepLine r m st (Line.ok (Event.generated_code_chunk ag c)) =
      ({ st with genAccum := st.genAccum ++ c,
                 view := (st.view.hideGenLoader).updateContent i
                   (r (st.genAccum ++ c)) },
       false, []) := by
  simp [stepLine, applyGate, dispatch, hr, hg]

theorem runLines_singleton (r : String → String) (m : String)
    (st : SessState) (l : Line) :
    runLines r m st [l] =
      ((stepLine r m st l).1, (stepLine r m st l).2.1,
        (stepLine r m st l).2.2) := by
  rcases hs : stepLine r m st l with ⟨st2, stop, out⟩
  rw [runLines_cons, hs]
  cases stop <;> simp [runLines]

theorem runLines_suggChunks_open (r : String → String) (m ag : String)
    (cs : List String) (st : SessState) (i : Nat)
    (hr : st.hasReceivedData = true) (hs : st.suggEl = some i) :
    runLines r m st (suggChunkLines ag cs) =
      (if cs = [] then st else
        { st with suggAccum := st.suggAccum ++ joinS cs,
                  view := st.view.updateContent i (r (st.suggAccum ++ joinS cs)) },
       false, []) := by
  induction cs generalizing st with
  | nil => simp [suggChunkLines, runLines]
  | cons c cs ih =>
    have hmap : suggChunkLines ag (c :: cs) =
        Line.ok (Event.suggestions_chunk ag c) :: suggChunkLines ag cs := rfl
    rw [hmap, runLines_cons, stepLine_suggChunk_open r m ag c st i hr hs]
    simp only
    rw [ih { st with suggAccum := st.suggAccum ++ c, view := st.view.updateContent i (r (st.suggAccum ++ c)) } hr hs]
    by_cases hcs : cs = []
    · subst hcs
      simp [joinS, String.append_empty]
    · simp only [if_neg hcs, if_neg (List.cons_ne_nil c cs)]
      simp [joinS, String.append_assoc, updateContent_updateContent]

theorem runLines_genChunks_open (r : String → String) (m ag : String)
    (cs : List String) (st : SessState) (i : Nat)
    (hr : st.hasReceivedData = true) (hg : st.genEl = some i) :
    runLines r m st (genChunkLines ag cs) =
      (if cs = [] then st else
        { st with genAccum := st.genAccum ++ joinS cs,
                  view := (st.view.hideGenLoader).updateContent i
                    (r (st.genAccum ++ joinS cs)) },
       false, []) := by
  induction cs generalizing st with
  | nil => simp [genChunkLines, runLines]
  | cons c cs ih =>
    have hmap : genChunkLines ag (c :: cs) =
        Line.ok (Event.generated_code_chunk ag c) :: genChunkLines ag cs := rfl
    rw [hmap, runLines_cons, stepLine_genChunk_open r m ag c st i hr hg]
    simp only
    rw [ih { st with genAccum := st.genAccum ++ c, view := (st.view.hideGenLoader).updateContent i (r (st.genAccum ++ c)) } hr hg]
    by_cases hcs : cs = []
    · subst hcs
      simp [joinS, String.append_empty]
    · simp only [if_neg hcs, if_neg (List.cons_ne_nil c cs)]
      simp [joinS, String.append_assoc, updateContent_updateContent,
        hideGenLoader_updateContent, hideGenLoader_idem]

theorem stepLine_suggChunk_fresh (r : String → String) (m ag c : String)
    (v : View) (ls : Option SuggCache) :
    stepLine r m (initSession v ls none)
        (Line.ok (Event.suggestions_chunk ag c)) =
      ({ initSession v ls none with
           hasReceivedData := true,
           suggAgent := ag,
           suggEl := some v.bubbles.length,
           suggAccum := c,
           view := ((v.hideInitLoader).appendBubble
               (openBubble .sugg ag)).updateContent v.bubbles.length (r c) },
       false, []) := by
  simp [stepLine, applyGate, dispatch, initSession, String.empty_append,
    hideInitLoader_bubbles, hideGenLoader_bubbles]

theorem stepLine_genChunk_fresh (r : String → String) (m ag c : String)
    (v : View) (ls : Option SuggCache) :
    stepLine r m (initSession v ls none)
        (Line.ok (Event.generated_code_chunk ag c)) =
      ({ initSession v ls none with
           hasReceivedData := true,
           genAgent := ag,
           genEl := some v.bubbles.length,
           genAccum := c,
           view := (((v.hideInitLoader).hideGenLoader).appendBubble
               (openBubble .code ag)).updateContent v.bubbles.length (r c) },
       false, []) := by
  simp [stepLine, applyGate, dispatch, initSession, String.empty_append,
    hideInitLoader_bubbles, hideGenLoader_bubbles]

theorem stepLine_suggEnd_open (r : String → String) (m ag : String)
    (st : SessState) (i : Nat) (hr : st.hasReceivedData = true)
    (hs : st.suggEl = some i) :
    stepLine r m st (Line.ok (Event.suggestions_end ag)) =
      ({ st with
           suggestionPhaseIsComplete := true,
           lastSuggestions := some { agent := ag, content := st.suggAccum },
           view := ((st.view.removeCursor i).addRegen i m true).showGenLoader },
       false, []) := by
  simp [stepLine, applyGate, dispatch, hr, hs]

theorem stepLine_streamEnd_open (r : String → String) (m ag : String)
    (st : SessState) (i : Nat) (hr : st.hasReceivedData = true)
    (hg : st.genEl = some i) :
    stepLine r m st (Line.ok (Event.stream_end ag)) =
      ({ st with
           view := ((st.view.hideGenLoader).removeCursor i).addRegen i m false },
       false, []) := by
  simp [stepLine, applyGate, dispatch, hr, hg]

theorem runLines_cons_of_step (r : String → String) (m : String)
    (s0 s1 : SessState) (hd : Line) (rest : List Line)
    (h1 : stepLine r m s0 hd = (s1, false, [])) :
    runLines r m s0 (hd :: rest) = runLines r m s1 rest := by
  rw [runLines_cons, h1]
  simp

theorem runLines_append_of_no_stop (r : String → String) (m : String)
    (s0 s1 : SessState) (a b : List Line)
    (h : runLines r m s0 a = (s1, false, [])) :
    runLines r m s0 (a ++ b) = runLines r m s1 b := by
  have hstop : (runLines r m s0 a).2.1 = false := by rw [h]
  rw [runLines_append_no_stop r m a b s0 hstop, h]
  simp

theorem runLines_singleton_of_step (r : String → String) (m : String)
    (s0 s1 : SessState) (l : Line) (stop : Bool) (out : List String)
    (h : stepLine r m s0 l = (s1, stop, out)) :
    runLines r m s0 [l] = (s1, stop, out) := by
  rw [runLines_singleton, h]

/-- Running a whole suggestion phase (first chunk, further chunks, then
`suggestions_end` for the same agent) from the top of a session without a
cached suggestion. -/
theorem runLines_sugg_phase (r : String → String) (m ag c : String)
    (cs : List String) (v : View) (lsug : Option SuggCache) :
    runLines r m (initSession v lsug none)
      (suggChunkLines ag (c :: cs) ++ [Line.ok (Event.suggestions_end ag)]) =
    ({ initSession v lsug none with
         hasReceivedData := true,
         suggestionPhaseIsComplete := true,
         suggAgent := ag,
         suggEl := some v.bubbles.length,
         suggAccum := c ++ joinS cs,
         lastSuggestions := some { agent := ag, content := c ++ joinS cs },
         view := (((((v.hideInitLoader).appendBubble
             (openBubble .sugg ag)).updateContent v.bubbles.length
             (r (c ++ joinS cs))).removeCursor v.bubbles.length).addRegen
             v.bubbles.length m true).showGenLoader },
     false, []) := by
  have hcons : suggChunkLines ag (c :: cs) ++ [Line.ok (Event.suggestions_end ag)] =
      Line.ok (Event.suggestions_chunk ag c) ::
        (suggChunkLines ag cs ++ [Line.ok (Event.suggestions_end ag)]) := rfl
  set st1 : SessState := { initSession v lsug none with hasReceivedData := true, suggAgent := ag, suggEl := some v.bubbles.length, suggAccum := c, view := ((v.hideInitLoader).appendBubble (openBubble .sugg ag)).updateContent v.bubbles.length (r c) } with hst1
  have hr1 : st1.hasReceivedData = true := rfl
  have hs1 : st1.suggEl = some v.bubbles.length := rfl
  have h1 : stepLine r m (initSession v lsug none)
      (Line.ok (Event.suggestions_chunk ag c)) = (st1, false, []) :=
    stepLine_suggChunk_fresh r m ag c v lsug
  by_cases hcs : cs = []
  · subst hcs
    have h2 : runLines r m st1 (suggChunkLines ag []) = (st1, false, []) := rfl
    have h3 := stepLine_suggEnd_open r m ag st1 v.bubbles.length hr1 hs1
    rw [hcons, runLines_cons_of_step r m _ _ _ _ h1,
      runLines_append_of_no_stop r m _ _ _ _ h2,
      runLines_singleton_of_step r m _ _ _ _ _ h3]
    simp [hst1, joinS, String.append_empty]
  · have h2 := runLines_suggChunks_open r m ag cs st1 v.bubbles.length hr1 hs1
    rw [if_neg hcs] at h2
    set st2 : SessState := { st1 with suggAccum := st1.suggAccum ++ joinS cs, view := st1.view.updateContent v.bubbles.length (r (st1.suggAccum ++ joinS cs)) } with hst2
    have hr2 : st2.hasReceivedData = true := hr1
    have hs2 : st2.suggEl = some v.bubbles.length := hs1
    have h3 := stepLine_suggEnd_open r m ag st2 v.bubbles.length hr2 hs2
    rw [hcons, runLines_cons_of_step r m _ _ _ _ h1,
      runLines_append_of_no_stop r m _ _ _ _ h2,
      runLines_singleton_of_step r m _ _ _ _ _ h3]
    simp [hst2, hst1, joinS, String.append_assoc, updateContent_updateContent]

/-- Running a whole generation phase (first chunk, further chunks, then
`stream_end`) from the top of a session without a cached suggestion. -/
theorem runLines_gen_phase (r : String → String) (m ag c : String)
    (cs : List String) (v : View) (lsug : Option SuggCache) :
    runLines r m (initSession v lsug none)
      (genChunkLines ag (c :: cs) ++ [Line.ok (Event.stream_end ag)]) =
    ({ initSession v lsug none with
         hasReceivedData := true,
         genAgent := ag,
         genEl := some v.bubbles.length,
         genAccum := c ++ joinS cs,
         view := ((((((v.hideInitLoader).hideGenLoader).appendBubble
             (openBubble .code ag)).updateContent v.bubbles.length
             (r (c ++ joinS cs))).removeCursor v.bubbles.length).addRegen
             v.bubbles.length m false) },
     false, []) := by
  have hcons : genChunkLines ag (c :: cs) ++ [Line.ok (Event.stream_end ag)] =
      Line.ok (Event.generated_code_chunk ag c) ::
        (genChunkLines ag cs ++ [Line.ok (Event.stream_end ag)]) := rfl
  set st1 : SessState := { initSession v lsug none with hasReceivedData := true, genAgent := ag, genEl := some v.bubbles.length, genAccum := c, view := (((v.hideInitLoader).hideGenLoader).appendBubble (openBubble .code ag)).updateContent v.bubbles.length (r c) } with hst1
  have hr1 : st1.hasReceivedData = true := rfl
  have hg1 : st1.genEl = some v.bubbles.length := rfl
  have h1 : stepLine r m (initSession v lsug none)
      (Line.ok (Event.generated_code_chunk ag c)) = (st1, false, []) :=
    stepLine_genChunk_fresh r m ag c v lsug
  by_cases hcs : cs = []
  · subst hcs
    have h2 : runLines r m st1 (genChunkLines ag []) = (st1, false, []) := rfl
    have h3 := stepLine_streamEnd_open r m ag st1 v.bubbles.length hr1 hg1
    rw [hcons, runLines_cons_of_step r m _ _ _ _ h1,
      runLines_append_of_no_stop r m _ _ _ _ h2,
      runLines_singleton_of_step r m _ _ _ _ _ h3]
    simp [hst1, joinS, String.append_empty, hideGenLoader_updateContent,
      hideGenLoader_idem, appendBubble_hideGenLoader]
  · have h2 := runLines_genChunks_open r m ag cs st1 v.bubbles.length hr1 hg1
    rw [if_neg hcs] at h2
    set st2 : SessState := { st1 with genAccum := st1.genAccum ++ joinS cs, view := (st1.view.hideGenLoader).updateContent v.bubbles.length (r (st1.genAccum ++ joinS cs)) } with hst2
    have hr2 : st2.hasReceivedData = true := hr1
    have hg2 : st2.genEl = some v.bubbles.length := hg1
    have h3 := stepLine_streamEnd_open r m ag st2 v.bubbles.length hr2 hg2
    rw [hcons, runLines_cons_of_step r m _ _ _ _ h1,
      runLines_append_of_no_stop r m _ _ _ _ h2,
      runLines_singleton_of_step r m _ _ _ _ _ h3]
    simp [hst2, hst1, joinS, String.append_assoc, updateContent_updateContent,
      hideGenLoader_updateContent, hideGenLoader_idem, appendBubble_hideGenLoader]

theorem countKind_updateContent (k : BubbleKind) (v : View) (i : Nat)
    (s : String) :
    countKind k (v.updateContent i s).bubbles = countKind k v.bubbles :=
  countKind_modifyBubble k (fun b => { b with content := s })
    (fun _ => rfl) i v.bubbles

theorem countKind_removeCursor (k : BubbleKind) (v : View) (i : Nat) :
    countKind k (v.removeCursor i).bubbles = countKind k v.bubbles :=
  countKind_modifyBubble k (fun b => { b with cursor := false })
    (fun _ => rfl) i v.bubbles

theorem countKind_addRegen (k : BubbleKind) (v : View) (i : Nat)
    (msg : String) (forSugg : Bool) :
    countKind k (v.addRegen i msg forSugg).bubbles = countKind k v.bubbles := by
  apply countKind_modifyBubble
  intro b
  by_cases h : b.hasRegen <;> simp [h]

theorem applyGate_fields (st : SessState) :
    (applyGate st).view.bubbles = st.view.bubbles ∧
    (applyGate st).suggestionPhaseIsComplete = st.suggestionPhaseIsComplete ∧
    (applyGate st).lastSuggestions = st.lastSuggestions ∧
    (applyGate st).suggEl = st.suggEl ∧
    (applyGate st).genEl = st.genEl ∧
    (applyGate st).suggAccum = st.suggAccum ∧
    (applyGate st).genAccum = st.genAccum := by
  by_cases h1 : st.hasReceivedData <;>
    by_cases h2 : st.suggestionPhaseIsComplete <;>
      simp [applyGate, h1, h2, View.hideInitLoader, View.showGenLoader]

theorem stepLine_malformed (r : String → String) (m raw : String)
    (st : SessState) (hr : st.hasReceivedData = true) :
    stepLine r m st (Line.malformed raw) =
      (st, false, ["JSON parse error: " ++ raw]) := by
  simp [stepLine, applyGate, hr]

theorem stepLine_error (r : String → String) (m ag c : String)
    (st : SessState) :
    stepLine r m st (Line.ok (Event.error ag c)) =
      ({ applyGate st with view := (((applyGate st).view.hideInitLoader).hideGenLoader).appendBubble (errorBubble r m ag c (applyGate st).suggestionPhaseIsComplete) }, true, []) := by
  simp [stepLine, dispatch]

theorem stepLine_suggEnd_unopened (r : String → String) (m ag : String)
    (st : SessState) (hr : st.hasReceivedData = true)
    (hs : st.suggEl = none) :
    stepLine r m st (Line.ok (Event.suggestions_end ag)) =
      ({ st with suggestionPhaseIsComplete := true,
                 view := st.view.showGenLoader }, false, []) := by
  simp [stepLine, applyGate, dispatch, hr, hs]

theorem stepLine_streamEnd_unopened (r : String → String) (m ag : String)
    (st : SessState) (hr : st.hasReceivedData = true)
    (hg : st.genEl = none) :
    stepLine r m st (Line.ok (Event.stream_end ag)) =
      ({ st with view := st.view.hideGenLoader }, false, []) := by
  simp [stepLine, applyGate, dispatch, hr, hg]

theorem dispatch_error_count (r : String → String) (m : String)
    (st : SessState) (e : Event) (he : Line.isError (Line.ok e) = false) :
    countKind .error (dispatch r m st e).1.view.bubbles =
      countKind .error st.view.bubbles := by
  cases e with
  | suggestions_chunk ag c =>
    rcases h : st.suggEl with - | i <;>
      simp [dispatch, h, View.appendBubble, countKind_updateContent,
        countKind_append_singleton, openBubble]
  | suggestions_end ag =>
    rcases h : st.suggEl with - | i <;>
      simp [dispatch, h, View.showGenLoader, countKind_removeCursor,
        countKind_addRegen]
  | generated_code_chunk ag c =>
    rcases h : st.genEl with - | i <;>
      simp [dispatch, h, View.appendBubble, View.hideGenLoader,
        countKind_updateContent, countKind_append_singleton, openBubble]
  | stream_end ag =>
    rcases h : st.genEl with - | i <;>
      simp [dispatch, h, View.hideGenLoader, countKind_removeCursor,
        countKind_addRegen]
  | error ag c => simp [Line.isError] at he
  | suggestions ag c => rfl
  | other => rfl

theorem stepLine_error_count (r : String → String) (m : String)
    (st : SessState) (l : Line) (hl : l.isError = false) :
    countKind .error (stepLine r m st l).1.view.bubbles =
      countKind .error st.view.bubbles := by
  cases l with
  | blank => rfl
  | malformed raw =>
    simp only [stepLine]
    exact (applyGate_fields st).1 ▸ rfl
  | ok e =>
    simp only [stepLine]
    rw [dispatch_error_count r m (applyGate st) e hl, (applyGate_fields st).1]

theorem runLines_error_count (r : String → String) (m : String)
    (ls : List Line) (st : SessState)
    (h : ∀ l ∈ ls, l.isError = false) :
    countKind .error (runLines r m st ls).1.view.bubbles =
      countKind .error st.view.bubbles := by
  induction ls generalizing st with
  | nil => rfl
  | cons l ls ih =>
    rcases hs : stepLine r m st l with ⟨st2, stop, out⟩
    have hstep : countKind .error st2.view.bubbles =
        countKind .error st.view.bubbles := by
      have h2 := stepLine_error_count r m st l (h l (List.mem_cons_self l ls))
      rw [hs] at h2
      exact h2
    rw [runLines_cons, hs]
    cases stop with
    | true => exact hstep
    | false =>
      simp only
      rw [ih st2 (fun x hx => h x (List.mem_cons_of_mem _ hx)), hstep]

/-- The chat view at the start of the scenario claims: an empty chat with
the initial loader showing, as right after `handleSend` or a regenerate
click called `showLoader('initial-loader', ...)`. -/
def startView : View :=
  { bubbles := [], initialLoader := true, generationLoader := false }

theorem dispatch_sugg_count (r : String → String) (m : String)
    (st : SessState) (e : Event)
    (he : Line.isSuggChunk (Line.ok e) = false) :
    countKind .sugg (dispatch r m st e).1.view.bubbles =
      countKind .sugg st.view.bubbles := by
  cases e with
  | suggestions_chunk ag c => simp [Line.isSuggChunk] at he
  | suggestions_end ag =>
    rcases h : st.suggEl with - | i <;>
      simp [dispatch, h, View.showGenLoader, countKind_removeCursor,
        countKind_addRegen]
  | generated_code_chunk ag c =>
    rcases h : st.genEl with - | i <;>
      simp [dispatch, h, View.appendBubble, View.hideGenLoader,
        countKind_updateContent, countKind_append_singleton, openBubble]
  | stream_end ag =>
    rcases h : st.genEl with - | i <;>
      simp [dispatch, h, View.hideGenLoader, countKind_removeCursor,
        countKind_addRegen]
  | error ag c =>
    simp [dispatch, View.appendBubble, View.hideInitLoader, View.hideGenLoader,
      countKind_append_singleton, errorBubble]
  | suggestions ag c => rfl
  | other => rfl

theorem stepLine_sugg_count (r : String → String) (m : String)
    (st : SessState) (l : Line) (hl : l.isSuggChunk = false) :
    countKind .sugg (stepLine r m st l).1.view.bubbles =
      countKind .sugg st.view.bubbles := by
  cases l with
  | blank => rfl
  | malformed raw =>
    simp only [stepLine]
    exact (applyGate_fields st).1 ▸ rfl
  | ok e =>
    simp only [stepLine]
    rw [dispatch_sugg_count r m (applyGate st) e hl, (applyGate_fields st).1]

theorem runLines_sugg_count (r : String → String) (m : String)
    (ls : List Line) (st : SessState)
    (h : ∀ l ∈ ls, l.isSuggChunk = false) :
    countKind .sugg (runLines r m st ls).1.view.bubbles =
      countKind .sugg st.view.bubbles := by
  induction ls generalizing st with
  | nil => rfl
  | cons l ls ih =>
    rcases hs : stepLine r m st l with ⟨st2, stop, out⟩
    have hstep : countKind .sugg st2.view.bubbles =
        countKind .sugg st.view.bubbles := by
      have h2 := stepLine_sugg_count r m st l (h l (List.mem_cons_self l ls))
      rw [hs] at h2
      exact h2
    rw [runLines_cons, hs]
    cases stop with
    | true => exact hstep
    | false =>
      simp only
      rw [ih st2 (fun x hx => h x (List.mem_cons_of_mem _ hx)), hstep]

/-- C2.  For every partition of one phase's text into chunk events delivered
in order, the content displayed after the phase is finalized equals the
Markdown rendering of the concatenation of the fragments in arrival order,
and two partitions with the same concatenation produce identical final
results: chunking granularity has no effect on the final rendered output
(src/unnamed/part_000 lines 229-251, generation phase). -/
theorem C2_chunking_granularity (r : String → String) (m ag : String)
    (cs cs2 : List String) (hcs : cs ≠ []) (hcs2 : cs2 ≠ [])
    (hj : joinS cs = joinS cs2) :
    (runLines r m (initSession startView none none)
        (genChunkLines ag cs ++ [Line.ok (Event.stream_end ag)])).1.view.bubbles =
      [{ kind := .code, agent := ag, content := r (joinS cs), cursor := false,
         hasRegen := true, regenForSuggestions := false, regenMessage := m }] ∧
    runLines r m (initSession startView none none)
        (genChunkLines ag cs ++ [Line.ok (Event.stream_end ag)]) =
      runLines r m (initSession startView none none)
        (genChunkLines ag cs2 ++ [Line.ok (Event.stream_end ag)]) := by
  cases cs with
  | nil => exact absurd rfl hcs
  | cons c cs =>
    cases cs2 with
    | nil => exact absurd rfl hcs2
    | cons c2 cs2 =>
      have hj2 : c ++ joinS cs = c2 ++ joinS cs2 := by
        simpa [joinS] using hj
      constructor
      · rw [runLines_gen_phase]
        simp [startView, View.hideInitLoader, View.hideGenLoader,
          View.appendBubble, View.updateContent, View.removeCursor,
          View.addRegen, openBubble, modifyBubble, joinS]
      · rw [runLines_gen_phase, runLines_gen_phase, hj2]

/-- C2 witness at concrete inputs: two chunkings of "foo" ++ "bar". -/
theorem C2_chunking_granularity_witness :
    (["foo", "bar"] : List String) ≠ [] ∧ (["foobar"] : List String) ≠ [] ∧
    joinS ["foo", "bar"] = joinS ["foobar"] ∧
    ((runLines (fun s => s) "msg" (initSession startView none none)
        (genChunkLines "Coder" ["foo", "bar"] ++
          [Line.ok (Event.stream_end "Coder")])).1.view.bubbles =
      [{ kind := .code, agent := "Coder", content := "foobar", cursor := false,
         hasRegen := true, regenForSuggestions := false,
         regenMessage := "msg" }] ∧
    runLines (fun s => s) "msg" (initSession startView none none)
        (genChunkLines "Coder" ["foo", "bar"] ++
          [Line.ok (Event.stream_end "Coder")]) =
      runLines (fun s => s) "msg" (initSession startView none none)
        (genChunkLines "Coder" ["foobar"] ++
          [Line.ok (Event.stream_end "Coder")])) := by
  refine ⟨by decide, by decide, by decide, ?_⟩
  have h := C2_chunking_granularity (fun s => s) "msg" "Coder"
    ["foo", "bar"] ["foobar"] (by decide) (by decide) (by decide)
  simpa using h

/-- C5.  After suggestion chunk events with contents `c1..cN` followed by a
`suggestions_end` for the same agent, exactly one finalized suggestion
bubble shows the rendering of the concatenated fragments, and the
LastSuggestion cache equals `{agent, concatenation}`
(src/unnamed/part_000 lines 206-227). -/
theorem C5_suggestion_phase (r : String → String) (m ag : String)
    (cs : List String) (hcs : cs ≠ []) :
    (runLines r m (initSession startView none none)
        (suggChunkLines ag cs ++
          [Line.ok (Event.suggestions_end ag)])).1.view.bubbles =
      [{ kind := .sugg, agent := ag, content := r (joinS cs), cursor := false,
         hasRegen := true, regenForSuggestions := true, regenMessage := m }] ∧
    (runLines r m (initSession startView none none)
        (suggChunkLines ag cs ++
          [Line.ok (Event.suggestions_end ag)])).1.lastSuggestions =
      some { agent := ag, content := joinS cs } := by
  cases cs with
  | nil => exact absurd rfl hcs
  | cons c cs =>
    rw [runLines_sugg_phase r m ag c cs startView none]
    constructor
    · simp [startView, View.hideInitLoader, View.appendBubble,
        View.updateContent, View.removeCursor, View.addRegen,
        View.showGenLoader, openBubble, modifyBubble, joinS]
    · simp [joinS]

/-- C5 witness: Scenario A of the spec, with a concrete renderer. -/
theorem C5_suggestion_phase_witness :
    (["Use ", "a for-loop."] : List String) ≠ [] ∧
    ((runLines (fun s => s) "fix this loop" (initSession startView none none)
        (suggChunkLines "Reviewer" ["Use ", "a for-loop."] ++
          [Line.ok (Event.suggestions_end "Reviewer")])).1.view.bubbles =
      [{ kind := .sugg, agent := "Reviewer", content := "Use a for-loop.",
         cursor := false, hasRegen := true, regenForSuggestions := true,
         regenMessage := "fix this loop" }] ∧
    (runLines (fun s => s) "fix this loop" (initSession startView none none)
        (suggChunkLines "Reviewer" ["Use ", "a for-loop."] ++
          [Line.ok (Event.suggestions_end "Reviewer")])).1.lastSuggestions =
      some { agent := "Reviewer", content := "Use a for-loop." }) := by
  refine ⟨by decide, ?_⟩
  have h := C5_suggestion_phase (fun s => s) "fix this loop" "Reviewer"
    ["Use ", "a for-loop."] (by decide)
  simpa using h

/-- C3 (amended).  In the src/unnamed/part_000 variant (lines 253-258), for
every event sequence containing an `error` event (with no earlier error),
processing that event renders exactly one error bubble attributed to the
event's agent, removes both loading indicators, and terminates the read
loop immediately: the run is identical to the run that ends at the error,
so no later event is processed.  (The src/frontend/main.js variant, also
cited by the claim, has no `return` in its error branch and no loading
indicators; see the counterexample.) -/
theorem C3_error_event_terminates (r : String → String) (m ag c : String)
    (pre post : List Line) (st : SessState)
    (hpre : ∀ l ∈ pre, l.isError = false) :
    runLines r m st (pre ++ Line.ok (Event.error ag c) :: post) =
      runLines r m st (pre ++ [Line.ok (Event.error ag c)]) ∧
    (runLines r m st (pre ++ Line.ok (Event.error ag c) :: post)).2.1 = true ∧
    (runLines r m st (pre ++ Line.ok (Event.error ag c) :: post)).1.view.bubbles =
      (runLines r m st pre).1.view.bubbles ++
        [errorBubble r m ag c
          (runLines r m st pre).1.suggestionPhaseIsComplete] ∧
    (runLines r m st (pre ++ Line.ok (Event.error ag c) :: post)).1.view.initialLoader = false ∧
    (runLines r m st (pre ++ Line.ok (Event.error ag c) :: post)).1.view.generationLoader = false ∧
    countKind .error (runLines r m st (pre ++ Line.ok (Event.error ag c) :: post)).1.view.bubbles =
      countKind .error st.view.bubbles + 1 := by
  have hstop0 : (runLines r m st pre).2.1 = false :=
    runLines_no_stop r m pre st hpre
  have herr := stepLine_error r m ag c (runLines r m st pre).1
  have hrun : ∀ tail : List Line,
      runLines r m (runLines r m st pre).1
          (Line.ok (Event.error ag c) :: tail) =
        ((stepLine r m (runLines r m st pre).1
            (Line.ok (Event.error ag c))).1, true, []) := by
    intro tail
    rw [runLines_cons, herr]
  have happ1 := runLines_append_no_stop r m pre
    (Line.ok (Event.error ag c) :: post) st hstop0
  have happ2 := runLines_append_no_stop r m pre
    [Line.ok (Event.error ag c)] st hstop0
  rw [hrun post] at happ1
  rw [hrun []] at happ2
  simp only at happ1 happ2
  have hgate := applyGate_fields (runLines r m st pre).1
  have hcount : countKind .error (runLines r m st pre).1.view.bubbles =
      countKind .error st.view.bubbles := runLines_error_count r m pre st hpre
  refine ⟨by rw [happ1, happ2], by rw [happ1], ?_, ?_, ?_, ?_⟩
  · rw [happ1, herr]
    simp [View.appendBubble, View.hideInitLoader, View.hideGenLoader,
      hgate.1, hgate.2.1]
  · rw [happ1, herr]
    simp [View.appendBubble, View.hideInitLoader, View.hideGenLoader]
  · rw [happ1, herr]
    simp [View.appendBubble, View.hideInitLoader, View.hideGenLoader]
  · rw [happ1, herr]
    simp only
    rw [show ((({ applyGate (runLines r m st pre).1 with view := ((((applyGate (runLines r m st pre).1).view.hideInitLoader).hideGenLoader).appendBubble (errorBubble r m ag c (applyGate (runLines r m st pre).1).suggestionPhaseIsComplete)) } : SessState)).view.bubbles) = (applyGate (runLines r m st pre).1).view.bubbles ++ [errorBubble r m ag c (applyGate (runLines r m st pre).1).suggestionPhaseIsComplete] from rfl]
    rw [countKind_append_singleton, hgate.1, hcount]
    simp [errorBubble]

/-- C3 witness: Scenario C with a concrete renderer; the error arrives after
one suggestion chunk and before a generation chunk. -/
theorem C3_error_event_terminates_witness :
    (∀ l ∈ [Line.ok (Event.suggestions_chunk "Reviewer" "hi")],
      l.isError = false) ∧
    runLines (fun s => s) "msg" (initSession startView none none)
        ([Line.ok (Event.suggestions_chunk "Reviewer" "hi")] ++
          Line.ok (Event.error "Coder" "rate limited") ::
            [Line.ok (Event.generated_code_chunk "Coder" "x")]) =
      runLines (fun s => s) "msg" (initSession startView none none)
        ([Line.ok (Event.suggestions_chunk "Reviewer" "hi")] ++
          [Line.ok (Event.error "Coder" "rate limited")]) ∧
    (runLines (fun s => s) "msg" (initSession startView none none)
        ([Line.ok (Event.suggestions_chunk "Reviewer" "hi")] ++
          Line.ok (Event.error "Coder" "rate limited") ::
            [Line.ok (Event.generated_code_chunk "Coder" "x")])).2.1 = true ∧
    countKind .error (runLines (fun s => s) "msg"
        (initSession startView none none)
        ([Line.ok (Event.suggestions_chunk "Reviewer" "hi")] ++
          Line.ok (Event.error "Coder" "rate limited") ::
            [Line.ok (Event.generated_code_chunk "Coder" "x")])).1.view.bubbles =
      countKind .error (initSession startView none none).view.bubbles + 1 :=
  have h := C3_error_event_terminates (fun s => s) "msg" "Coder" "rate limited"
    [Line.ok (Event.suggestions_chunk "Reviewer" "hi")]
    [Line.ok (Event.generated_code_chunk "Coder" "x")]
    (initSession startView none none) (by decide)
  ⟨by decide, h.1, h.2.1, h.2.2.2.2.2⟩

/-- C3 counterexample: in src/frontend/main.js (cited by the claim) the
`error` branch has no `return`, so the read loop is not terminated: a
`generated_code_chunk` arriving after the error event in the same response
is still processed — it opens and renders a code bubble and fills the
generation accumulator. -/
theorem C3_frontend_error_does_not_terminate :
    (runFmLines (fun s => s) "msg" (initFmSession none)
        [Line.ok (Event.error "Coder" "rate limited"),
         Line.ok (Event.generated_code_chunk "Coder" "x")]).bubbles.map
      Bubble.kind = [BubbleKind.error, BubbleKind.code] ∧
    (runFmLines (fun s => s) "msg" (initFmSession none)
        [Line.ok (Event.error "Coder" "rate limited"),
         Line.ok (Event.generated_code_chunk "Coder" "x")]).generationAccumMd
      = "x" := by
  constructor <;> decide

/-- C4 (amended).  In the refactored dispatcher of src/unnamed/part_000
lines 197-203, a line that fails to parse as JSON after data has already
been received is recovered locally: the step leaves the session state
unchanged and only logs a diagnostic, the loop does not stop there, and the
whole run reaches exactly the same state and stop status as the run without
the malformed line — in particular valid chunks before and after it are all
applied.  (The legacy src/unnamed/part_004 variant violates this; see the
counterexample.) -/
theorem C4_malformed_line_recovered (r : String → String) (m raw : String)
    (a b : List Line) (st : SessState)
    (ha : (runLines r m st a).1.hasReceivedData = true) :
    stepLine r m (runLines r m st a).1 (Line.malformed raw) =
      ((runLines r m st a).1, false, ["JSON parse error: " ++ raw]) ∧
    (runLines r m st (a ++ Line.malformed raw :: b)).1 =
      (runLines r m st (a ++ b)).1 ∧
    (runLines r m st (a ++ Line.malformed raw :: b)).2.1 =
      (runLines r m st (a ++ b)).2.1 := by
  have hmal := stepLine_malformed r m raw (runLines r m st a).1 ha
  refine ⟨hmal, ?_, ?_⟩ <;>
  · by_cases hstop : (runLines r m st a).2.1
    · rw [runLines_append_stop r m a _ st hstop,
        runLines_append_stop r m a b st hstop]
    · have hstop2 : (runLines r m st a).2.1 = false := by
        simpa using hstop
      have h1 := runLines_append_no_stop r m a (Line.malformed raw :: b) st hstop2
      have h2 := runLines_append_no_stop r m a b st hstop2
      have h3 : runLines r m (runLines r m st a).1 (Line.malformed raw :: b) =
          ((runLines r m (runLines r m st a).1 b).1,
           (runLines r m (runLines r m st a).1 b).2.1,
           ["JSON parse error: " ++ raw] ++
             (runLines r m (runLines r m st a).1 b).2.2) := by
        rw [runLines_cons, hmal]
      rw [h1, h3, h2]

/-- C4 witness: a malformed line between two valid chunks, after one chunk
has opened the generation phase. -/
theorem C4_malformed_line_recovered_witness :
    (runLines (fun s => s) "msg" (initSession startView none none)
        [Line.ok (Event.generated_code_chunk "Coder" "A")]).1.hasReceivedData = true ∧
    (runLines (fun s => s) "msg" (initSession startView none none)
        ([Line.ok (Event.generated_code_chunk "Coder" "A")] ++
          Line.malformed "not json" ::
            [Line.ok (Event.generated_code_chunk "Coder" "B")])).1 =
      (runLines (fun s => s) "msg" (initSession startView none none)
        ([Line.ok (Event.generated_code_chunk "Coder" "A")] ++
          [Line.ok (Event.generated_code_chunk "Coder" "B")])).1 ∧
    (runLines (fun s => s) "msg" (initSession startView none none)
        ([Line.ok (Event.generated_code_chunk "Coder" "A")] ++
          Line.malformed "not json" ::
            [Line.ok (Event.generated_code_chunk "Coder" "B")])).1.genAccum = "AB" :=
  have h := C4_malformed_line_recovered (fun s => s) "msg" "not json"
    [Line.ok (Event.generated_code_chunk "Coder" "A")]
    [Line.ok (Event.generated_code_chunk "Coder" "B")]
    (initSession startView none none) (by decide)
  ⟨by decide, h.2.1, by decide⟩

/-- C4 counterexample: in the legacy variant src/unnamed/part_004 the
`JSON.parse` exception escapes the per-line loop, so the chunk after the
malformed line is never applied — the open code bubble reads "A", not "AB" —
and the session-level catch renders a client error. -/
theorem C4_part004_counterexample :
    (sendP4 [Line.ok (Event.generated_code_chunk "Coder" "A"),
             Line.malformed "not json",
             Line.ok (Event.generated_code_chunk "Coder" "B")]).2 = true ∧
    (sendP4 [Line.ok (Event.generated_code_chunk "Coder" "A"),
             Line.malformed "not json",
             Line.ok (Event.generated_code_chunk "Coder" "B")]).1.bubbles.map
        Bubble.content =
      ["A", "Client error: JSON parse failure"] := by
  constructor <;> decide

/-- C7 (amended).  A `suggestions_end` / `stream_end` for a phase that was
never opened creates or finalizes no bubble, leaves accumulators and the
LastSuggestion cache untouched, and cannot crash or stop the loop; however
it is not a full view no-op: `suggestions_end` still marks the suggestion
phase complete and shows the generation loader, and `stream_end` still hides
the generation loader (src/unnamed/part_000 lines 218-227 and 245-251). -/
theorem C7_unopened_terminal_events (r : String → String) (m ag : String)
    (st : SessState) (hr : st.hasReceivedData = true)
    (hs : st.suggEl = none) (hg : st.genEl = none) :
    stepLine r m st (Line.ok (Event.suggestions_end ag)) =
      ({ st with suggestionPhaseIsComplete := true,
                 view := st.view.showGenLoader }, false, []) ∧
    stepLine r m st (Line.ok (Event.stream_end ag)) =
      ({ st with view := st.view.hideGenLoader }, false, []) :=
  ⟨stepLine_suggEnd_unopened r m ag st hr hs,
   stepLine_streamEnd_unopened r m ag st hr hg⟩

/-- A mid-session state with no phase opened yet, for the C7 witness. -/
def c7State : SessState :=
  { initSession startView none none with hasReceivedData := true }

/-- C7 witness at a concrete unopened state. -/
theorem C7_unopened_terminal_events_witness :
    c7State.hasReceivedData = true ∧ c7State.suggEl = none ∧
    c7State.genEl = none ∧
    stepLine (fun s => s) "msg" c7State
        (Line.ok (Event.suggestions_end "Reviewer")) =
      ({ c7State with suggestionPhaseIsComplete := true,
                      view := c7State.view.showGenLoader }, false, []) ∧
    stepLine (fun s => s) "msg" c7State
        (Line.ok (Event.stream_end "Reviewer")) =
      ({ c7State with view := c7State.view.hideGenLoader }, false, []) :=
  have h := C7_unopened_terminal_events (fun s => s) "msg" "Reviewer"
    c7State rfl rfl rfl
  ⟨rfl, rfl, rfl, h.1, h.2⟩

/-- C7 counterexample: in src/unnamed/part_000 a `suggestions_end` for a
phase that never received a chunk is NOT a view no-op — the first-data gate
hides the initial loader and the handler shows the generation loader. -/
theorem C7_counterexample :
    (runLines (fun s => s) "msg" (initSession startView none none)
        [Line.ok (Event.suggestions_end "Reviewer")]).1.view ≠ startView := by
  decide

/-- C6.  When a regenerate action fires with a populated LastSuggestion
cache, the new request body carries `cached_suggestions` and
`cached_sugg_agent` equal to the cached values (src/frontend/main.js lines
85-93 and 108-112; src/unnamed/part_000 lines 115-123 and 165-169, where the
generation-scoped button passes the cache on), the new session starts with
the suggestion phase already complete, and any stream without
`suggestions_chunk` events renders no new suggestion bubble. -/
theorem C6_regenerate_uses_cache (r : String → String) (m ag c : String)
    (v : View) (ls : List Line)
    (hls : ∀ l ∈ ls, l.isSuggChunk = false) :
    (regenerateRequest m (some { agent := ag, content := c })).cached_suggestions = some c ∧
    (regenerateRequest m (some { agent := ag, content := c })).cached_sugg_agent = some ag ∧
    (regenerateRequest m (some { agent := ag, content := c })).user_message = m ∧
    regenerateCachedSuggestion false (some { agent := ag, content := c }) =
      some { agent := ag, content := c } ∧
    (initSession v (some { agent := ag, content := c })
        (some { agent := ag, content := c })).suggestionPhaseIsComplete = true ∧
    countKind .sugg (runLines r m (initSession v (some { agent := ag, content := c }) (some { agent := ag, content := c })) ls).1.view.bubbles =
      countKind .sugg v.bubbles := by
  refine ⟨rfl, rfl, rfl, rfl, rfl, ?_⟩
  exact runLines_sugg_count r m ls _ hls

/-- C6 witness: regenerate with a concrete cached suggestion and a
generation-only stream. -/
theorem C6_regenerate_uses_cache_witness :
    (∀ l ∈ [Line.ok (Event.generated_code_chunk "Coder" "x"),
            Line.ok (Event.stream_end "Coder")], l.isSuggChunk = false) ∧
    (regenerateRequest "fix this loop" (some { agent := "Reviewer", content := "Use a for-loop." })).cached_suggestions = some "Use a for-loop." ∧
    (regenerateRequest "fix this loop" (some { agent := "Reviewer", content := "Use a for-loop." })).cached_sugg_agent = some "Reviewer" ∧
    countKind .sugg (runLines (fun s => s) "fix this loop" (initSession startView (some { agent := "Reviewer", content := "Use a for-loop." }) (some { agent := "Reviewer", content := "Use a for-loop." })) [Line.ok (Event.generated_code_chunk "Coder" "x"), Line.ok (Event.stream_end "Coder")]).1.view.bubbles =
      countKind .sugg startView.bubbles :=
  have h := C6_regenerate_uses_cache (fun s => s) "fix this loop" "Reviewer"
    "Use a for-loop." startView
    [Line.ok (Event.generated_code_chunk "Coder" "x"),
     Line.ok (Event.stream_end "Coder")] (by decide)
  ⟨by decide, h.1, h.2.1, h.2.2.2.2.2⟩

/-- C9 (amended).  In the src/unnamed/part_000 and src/unnamed/part_002
variants, a brand-new (non-regenerate) send with non-empty trimmed text
resets the LastSuggestion cache to empty before the request is issued
(src/unnamed/part_000 lines 132-143); the src/frontend/main.js variant does
not reset the cache (see the counterexample), though its new request itself
carries no cached suggestion. -/
theorem C9_new_send_resets_cache (st : ComposerState)
    (h : jsTrim st.inputValue ≠ "") :
    (handleSend st).2 = some (jsTrim st.inputValue) ∧
    (handleSend st).1.lastSuggestions = none := by
  simp [handleSend, h]

/-- C9 witness: a new send with stale cache and non-blank input. -/
theorem C9_new_send_resets_cache_witness :
    jsTrim "  fix this loop  " ≠ "" ∧
    (handleSend { view := startView, lastSuggestions := some { agent := "Reviewer", content := "old" }, inputValue := "  fix this loop  ", sendDisabled := false }).2 = some (jsTrim "  fix this loop  ") ∧
    (handleSend { view := startView, lastSuggestions := some { agent := "Reviewer", content := "old" }, inputValue := "  fix this loop  ", sendDisabled := false }).1.lastSuggestions = none :=
  have h := C9_new_send_resets_cache
    { view := startView,
      lastSuggestions := some { agent := "Reviewer", content := "old" },
      inputValue := "  fix this loop  ", sendDisabled := false } (by decide)
  ⟨by decide, h.1, h.2⟩

/-- C9 counterexample: the src/frontend/main.js `handleSend` issues the new
request but leaves the populated LastSuggestion cache untouched. -/
theorem C9_counterexample :
    (handleSendFm { view := startView, lastSuggestions := some { agent := "Reviewer", content := "old" }, inputValue := "fix this loop", sendDisabled := false }).2 = some "fix this loop" ∧
    (handleSendFm { view := startView, lastSuggestions := some { agent := "Reviewer", content := "old" }, inputValue := "fix this loop", sendDisabled := false }).1.lastSuggestions = some { agent := "Reviewer", content := "old" } := by
  constructor <;> decide

/-- C10.  A send whose trimmed composer text is empty is a complete no-op in
both variants: the state (view, cache, composer, send button) is returned
unchanged and no request is issued (src/unnamed/part_000 lines 133-134,
src/frontend/main.js lines 65-66). -/
theorem C10_blank_send_noop (st : ComposerState)
    (h : jsTrim st.inputValue = "") :
    handleSend st = (st, none) ∧ handleSendFm st = (st, none) := by
  constructor <;> simp [handleSend, handleSendFm, h]

/-- C10 witness: whitespace-only composer text. -/
theorem C10_blank_send_noop_witness :
    jsTrim "   " = "" ∧
    handleSend { view := startView, lastSuggestions := some { agent := "Reviewer", content := "old" }, inputValue := "   ", sendDisabled := false } =
      ({ view := startView, lastSuggestions := some { agent := "Reviewer", content := "old" }, inputValue := "   ", sendDisabled := false }, none) ∧
    handleSendFm { view := startView, lastSuggestions := some { agent := "Reviewer", content := "old" }, inputValue := "   ", sendDisabled := false } =
      ({ view := startView, lastSuggestions := some { agent := "Reviewer", content := "old" }, inputValue := "   ", sendDisabled := false }, none) :=
  have h := C10_blank_send_noop
    { view := startView,
      lastSuggestions := some { agent := "Reviewer", content := "old" },
      inputValue := "   ", sendDisabled := false } (by decide)
  ⟨by decide, h.1, h.2⟩

/-- Bubble `j` of the view is an open (streaming-cursor) bubble of kind
`k`. -/
def View.openAt (v : View) (k : BubbleKind) (j : Nat) : Prop :=
  ∃ b, v.bubbles[j]? = some b ∧ b.kind = k ∧ b.cursor = true

/-- The structural invariant tying the open accumulators to the view: every
open suggestion bubble is the one `suggMsgEl` points at and every open code
bubble is the one `genMsgEl` points at — hence at most one open bubble per
phase. -/
def SessInv (st : SessState) : Prop :=
  (∀ j, st.view.openAt .sugg j → st.suggEl = some j) ∧
  (∀ j, st.view.openAt .code j → st.genEl = some j)

theorem openAt_congr_bubbles (v w : View) (h : v.bubbles = w.bubbles)
    (k : BubbleKind) (j : Nat) : v.openAt k j ↔ w.openAt k j := by
  unfold View.openAt
  rw [h]

theorem openAt_showGenLoader (v : View) (k : BubbleKind) (j : Nat) :
    (v.showGenLoader).openAt k j ↔ v.openAt k j := Iff.rfl

theorem openAt_hideGenLoader (v : View) (k : BubbleKind) (j : Nat) :
    (v.hideGenLoader).openAt k j ↔ v.openAt k j := Iff.rfl

theorem openAt_hideInitLoader (v : View) (k : BubbleKind) (j : Nat) :
    (v.hideInitLoader).openAt k j ↔ v.openAt k j := Iff.rfl

theorem openAt_modifyBubble (f : Bubble → Bubble)
    (hf : ∀ b, (f b).kind = b.kind ∧ (f b).cursor = b.cursor)
    (v : View) (i : Nat) (k : BubbleKind) (j : Nat) :
    View.openAt { v with bubbles := modifyBubble f i v.bubbles } k j ↔
      v.openAt k j := by
  unfold View.openAt
  simp only
  rw [modifyBubble_getElem?]
  by_cases hij : i = j
  · rw [if_pos hij]
    constructor
    · rintro ⟨b, hb, hk, hc⟩
      rcases Option.map_eq_some'.mp hb with ⟨b0, hb0, hfb⟩
      refine ⟨b0, hb0, ?_, ?_⟩
      · rw [← (hf b0).1, hfb]
        exact hk
      · rw [← (hf b0).2, hfb]
        exact hc
    · rintro ⟨b, hb, hk, hc⟩
      refine ⟨f b, by rw [hb, Option.map_some'], ?_, ?_⟩
      · rw [(hf b).1]
        exact hk
      · rw [(hf b).2]
        exact hc
  · rw [if_neg hij]

theorem openAt_updateContent (v : View) (i : Nat) (s : String)
    (k : BubbleKind) (j : Nat) :
    (v.updateContent i s).openAt k j ↔ v.openAt k j :=
  openAt_modifyBubble (fun b => { b with content := s })
    (fun _ => ⟨rfl, rfl⟩) v i k j

theorem openAt_addRegen (v : View) (i : Nat) (msg : String) (forSugg : Bool)
    (k : BubbleKind) (j : Nat) :
    (v.addRegen i msg forSugg).openAt k j ↔ v.openAt k j := by
  refine openAt_modifyBubble _ ?_ v i k j
  intro b
  by_cases h : b.hasRegen <;> simp [h]

theorem openAt_removeCursor_imp (v : View) (i : Nat) (k : BubbleKind)
    (j : Nat) : (v.removeCursor i).openAt k j → v.openAt k j := by
  unfold View.openAt View.removeCursor
  simp only
  rw [modifyBubble_getElem?]
  by_cases hij : i = j
  · rw [if_pos hij]
    rintro ⟨b, hb, hk, hc⟩
    rcases Option.map_eq_some'.mp hb with ⟨b0, hb0, hfb⟩
    rw [← hfb] at hc
    simp at hc
  · rw [if_neg hij]
    exact id

theorem openAt_appendBubble (v : View) (b : Bubble) (k : BubbleKind)
    (j : Nat) :
    (v.appendBubble b).openAt k j ↔
      (v.openAt k j ∨
        (j = v.bubbles.length ∧ b.kind = k ∧ b.cursor = true)) := by
  unfold View.openAt View.appendBubble
  simp only
  rw [getElem?_append_singleton]
  by_cases h1 : j < v.bubbles.length
  · rw [if_pos h1]
    constructor
    · exact fun hb => Or.inl hb
    · rintro (hb | ⟨hj, -⟩)
      · exact hb
      · omega
  · rw [if_neg h1]
    by_cases h2 : j = v.bubbles.length
    · rw [if_pos h2]
      constructor
      · rintro ⟨b2, hb2, hk, hc⟩
        rcases Option.some.inj hb2 with rfl
        exact Or.inr ⟨h2, hk, hc⟩
      · rintro (⟨b2, hb2, -, -⟩ | ⟨-, hk, hc⟩)
        · have hnone : v.bubbles[j]? = none :=
            List.getElem?_eq_none (by omega)
          rw [hnone] at hb2
          cases hb2
        · exact ⟨b, rfl, hk, hc⟩
    · rw [if_neg h2]
      constructor
      · rintro ⟨b2, hb2, -, -⟩
        cases hb2
      · rintro (⟨b2, hb2, -, -⟩ | ⟨hj, -⟩)
        · have hnone : v.bubbles[j]? = none :=
            List.getElem?_eq_none (by omega)
          rw [hnone] at hb2
          cases hb2
        · exact absurd hj h2

theorem dispatch_inv (r : String → String) (m : String) (st : SessState)
    (e : Event) (h : SessInv st) : SessInv (dispatch r m st e).1 := by
  obtain ⟨h1, h2⟩ := h
  cases e with
  | suggestions_chunk ag c =>
    rcases hse : st.suggEl with - | i
    · constructor
      · intro j hj
        simp only [dispatch, hse, openAt_updateContent,
          openAt_appendBubble] at hj ⊢
        rcases hj with hj | ⟨hj, -, -⟩
        · exact absurd (h1 j hj) (by simp [hse])
        · rw [hj]
      · intro j hj
        simp only [dispatch, hse, openAt_updateContent,
          openAt_appendBubble] at hj ⊢
        rcases hj with hj | ⟨-, hk, -⟩
        · exact h2 j hj
        · simp [openBubble] at hk
    · constructor
      · intro j hj
        simp only [dispatch, hse, openAt_updateContent] at hj ⊢
        exact hse ▸ h1 j hj
      · intro j hj
        simp only [dispatch, hse, openAt_updateContent] at hj ⊢
        exact h2 j hj
  | suggestions_end ag =>
    rcases hse : st.suggEl with - | i
    · constructor
      · intro j hj
        simp only [dispatch, hse, openAt_showGenLoader] at hj ⊢
        exact hse ▸ h1 j hj
      · intro j hj
        simp only [dispatch, hse, openAt_showGenLoader] at hj ⊢
        exact h2 j hj
    · constructor
      · intro j hj
        simp only [dispatch, hse, openAt_showGenLoader,
          openAt_addRegen] at hj ⊢
        exact hse ▸ h1 j (openAt_removeCursor_imp _ _ _ _ hj)
      · intro j hj
        simp only [dispatch, hse, openAt_showGenLoader,
          openAt_addRegen] at hj ⊢
        exact h2 j (openAt_removeCursor_imp _ _ _ _ hj)
  | generated_code_chunk ag c =>
    rcases hge : st.genEl with - | i
    · constructor
      · intro j hj
        simp only [dispatch, hge, openAt_updateContent,
          openAt_appendBubble] at hj ⊢
        rcases hj with hj | ⟨-, hk, -⟩
        · exact h1 j hj
        · simp [openBubble] at hk
      · intro j hj
        simp only [dispatch, hge, openAt_updateContent,
          openAt_appendBubble] at hj ⊢
        rcases hj with hj | ⟨hj, -, -⟩
        · exact absurd (h2 j hj) (by simp [hge])
        · rw [hj]
    · constructor
      · intro j hj
        simp only [dispatch, hge, openAt_updateContent] at hj ⊢
        exact h1 j hj
      · intro j hj
        simp only [dispatch, hge, openAt_updateContent] at hj ⊢
        exact hge ▸ h2 j hj
  | stream_end ag =>
    rcases hge : st.genEl with - | i
    · constructor
      · intro j hj
        simp only [dispatch, hge, openAt_hideGenLoader] at hj ⊢
        exact h1 j hj
      · intro j hj
        simp only [dispatch, hge, openAt_hideGenLoader] at hj ⊢
        exact hge ▸ h2 j hj
    · constructor
      · intro j hj
        simp only [dispatch, hge, openAt_hideGenLoader,
          openAt_addRegen] at hj ⊢
        exact h1 j (openAt_removeCursor_imp _ _ _ _ hj)
      · intro j hj
        simp only [dispatch, hge, openAt_hideGenLoader,
          openAt_addRegen] at hj ⊢
        exact hge ▸ h2 j (openAt_removeCursor_imp _ _ _ _ hj)
  | error ag c =>
    constructor
    · intro j hj
      simp only [dispatch, openAt_appendBubble] at hj ⊢
      rcases hj with hj | ⟨-, -, hc⟩
      · exact h1 j hj
      · simp [errorBubble] at hc
    · intro j hj
      simp only [dispatch, openAt_appendBubble] at hj ⊢
      rcases hj with hj | ⟨-, -, hc⟩
      · exact h2 j hj
      · simp [errorBubble] at hc
  | suggestions ag c => exact ⟨h1, h2⟩
  | other => exact ⟨h1, h2⟩

theorem applyGate_inv (st : SessState) (h : SessInv st) :
    SessInv (applyGate st) := by
  obtain ⟨h1, h2⟩ := h
  obtain ⟨hb, -, -, hs, hg, -, -⟩ := applyGate_fields st
  constructor
  · intro j hj
    rw [openAt_congr_bubbles (applyGate st).view st.view hb] at hj
    rw [hs]
    exact h1 j hj
  · intro j hj
    rw [openAt_congr_bubbles (applyGate st).view st.view hb] at hj
    rw [hg]
    exact h2 j hj

theorem stepLine_inv (r : String → String) (m : String) (st : SessState)
    (l : Line) (h : SessInv st) : SessInv (stepLine r m st l).1 := by
  cases l with
  | blank => exact h
  | malformed raw => exact applyGate_inv st h
  | ok e => exact dispatch_inv r m (applyGate st) e (applyGate_inv st h)

theorem runLines_inv (r : String → String) (m : String) (ls : List Line)
    (st : SessState) (h : SessInv st) : SessInv (runLines r m st ls).1 := by
  induction ls generalizing st with
  | nil => exact h
  | cons l ls ih =>
    rcases hs : stepLine r m st l with ⟨st2, stop, out⟩
    have h2 : SessInv st2 := by
      have h3 := stepLine_inv r m st l h
      rw [hs] at h3
      exact h3
    rw [runLines_cons, hs]
    cases stop with
    | true => exact h2
    | false => exact ih st2 h2

theorem dispatch_suggChunk_append (r : String → String) (m ag c : String)
    (st : SessState) (i : Nat) (hs : st.suggEl = some i) :
    (dispatch r m st (Event.suggestions_chunk ag c)).1.view.bubbles.length =
      st.view.bubbles.length ∧
    (dispatch r m st (Event.suggestions_chunk ag c)).1.suggEl = some i ∧
    (dispatch r m st (Event.suggestions_chunk ag c)).1.suggAccum =
      st.suggAccum ++ c := by
  simp [dispatch, hs, View.updateContent, modifyBubble_length]

theorem dispatch_genChunk_append (r : String → String) (m ag c : String)
    (st : SessState) (i : Nat) (hg : st.genEl = some i) :
    (dispatch r m st (Event.generated_code_chunk ag c)).1.view.bubbles.length =
      st.view.bubbles.length ∧
    (dispatch r m st (Event.generated_code_chunk ag c)).1.genEl = some i ∧
    (dispatch r m st (Event.generated_code_chunk ag c)).1.genAccum =
      st.genAccum ++ c := by
  simp [dispatch, hg, View.updateContent, View.hideGenLoader,
    modifyBubble_length]

/-- C8.  Within a single session, at most one open accumulator exists per
phase: from any state satisfying the session invariant (as the fresh session
state does), after processing any further lines the invariant still holds,
there is at most one open suggestion bubble and at most one open code
bubble, and a chunk arriving while its phase is already open appends to the
existing accumulator and view node (same bubble count, same element handle,
accumulated text extended by the fragment) rather than opening a second one
(src/unnamed/part_000 lines 205-216 and 229-243). -/
theorem C8_single_open_accumulator (r : String → String) (m : String)
    (st : SessState) (ls : List Line) (h : SessInv st) :
    SessInv (runLines r m st ls).1 ∧
    (∀ j k, (runLines r m st ls).1.view.openAt .sugg j →
      (runLines r m st ls).1.view.openAt .sugg k → j = k) ∧
    (∀ j k, (runLines r m st ls).1.view.openAt .code j →
      (runLines r m st ls).1.view.openAt .code k → j = k) ∧
    (∀ ag c i, (runLines r m st ls).1.suggEl = some i →
      (dispatch r m (runLines r m st ls).1
          (Event.suggestions_chunk ag c)).1.view.bubbles.length =
        (runLines r m st ls).1.view.bubbles.length ∧
      (dispatch r m (runLines r m st ls).1
          (Event.suggestions_chunk ag c)).1.suggEl = some i ∧
      (dispatch r m (runLines r m st ls).1
          (Event.suggestions_chunk ag c)).1.suggAccum =
        (runLines r m st ls).1.suggAccum ++ c) ∧
    (∀ ag c i, (runLines r m st ls).1.genEl = some i →
      (dispatch r m (runLines r m st ls).1
          (Event.generated_code_chunk ag c)).1.view.bubbles.length =
        (runLines r m st ls).1.view.bubbles.length ∧
      (dispatch r m (runLines r m st ls).1
          (Event.generated_code_chunk ag c)).1.genEl = some i ∧
      (dispatch r m (runLines r m st ls).1
          (Event.generated_code_chunk ag c)).1.genAccum =
        (runLines r m st ls).1.genAccum ++ c) := by
  have hinv := runLines_inv r m ls st h
  refine ⟨hinv, ?_, ?_, ?_, ?_⟩
  · intro j k hj hk
    have e1 := hinv.1 j hj
    have e2 := hinv.1 k hk
    rw [e1] at e2
    exact Option.some.inj e2
  · intro j k hj hk
    have e1 := hinv.2 j hj
    have e2 := hinv.2 k hk
    rw [e1] at e2
    exact Option.some.inj e2
  · intro ag c i hs
    exact dispatch_suggChunk_append r m ag c _ i hs
  · intro ag c i hg
    exact dispatch_genChunk_append r m ag c _ i hg

/-- C8 witness: the fresh session state satisfies the invariant, and the
theorem applies to it with a concrete line list. -/
theorem C8_single_open_accumulator_witness :
    SessInv (initSession startView none none) ∧
    SessInv (runLines (fun s => s) "msg" (initSession startView none none)
      [Line.ok (Event.suggestions_chunk "Reviewer" "hi"),
       Line.ok (Event.suggestions_chunk "Reviewer" " there")]).1 :=
  have hinv : SessInv (initSession startView none none) := by
    constructor <;>
    · intro j hj
      rcases hj with ⟨b, hb, -⟩
      simp [startView, initSession] at hb
  ⟨hinv,
    (C8_single_open_accumulator (fun s => s) "msg"
      (initSession startView none none)
      [Line.ok (Event.suggestions_chunk "Reviewer" "hi"),
       Line.ok (Event.suggestions_chunk "Reviewer" " there")] hinv).1⟩

end FastNext
